import Mathlib

/-!
Verification development for the oksvg SVG parsing and replay library
(packages svgicon / svgpath).

Scalars: Go `float64` values are modelled by `ℚ` (exact arithmetic; none of
the verified properties depends on rounding of binary floating point).
Transcendental operations (`math.Sin`, `math.Cos`, `math.Tan`, `math.Pi`,
`math.Sqrt`) are kept abstract in a `RealOps` record: every theorem below
holds for an arbitrary interpretation of these operations, in particular for
the real ones.

Go `fixed.Int26_6` values (26.6 fixed point, driver-visible coordinates) are
modelled by `ℤ`; the conversion from a float multiplies by 64 and truncates
toward zero, like Go's float-to-int conversion.

Fallible Go functions returning `error` are modelled with `Option SvgError`
result components; `none` is Go's `nil` error.
-/

set_option allowUnsafeReducibility true

attribute [local semireducible] Rat.mul Rat.add Rat.inv Rat.sub Rat.ofScientific

namespace Oksvg

/-- Abstract interpretations of the transcendental operations used by the
source (`math.Cos`, `math.Sin`, `math.Tan`, `math.Pi`, `math.Sqrt`).
Theorems quantify over this record, so they hold for the real functions. -/
structure RealOps where
  cos : ℚ → ℚ
  sin : ℚ → ℚ
  tan : ℚ → ℚ
  pi : ℚ
  sqrt : ℚ → ℚ

/-- A trivial concrete interpretation, used only to instantiate witnesses
(the witnessed statements never depend on the transcendental values). -/
def qOps : RealOps := ⟨fun _ => 1, fun _ => 0, fun _ => 0, 3, fun _ => 1⟩

/-- Modelled from the spec: `Matrix2D` (the matrix type lives outside `src/`;
the spec defines fields (A,B,C,D,E,F) mapping (x,y) to
(A·x+C·y+E, B·x+D·y+F)). -/
structure Matrix2D where
  A : ℚ
  B : ℚ
  C : ℚ
  D : ℚ
  E : ℚ
  F : ℚ
  deriving DecidableEq, Repr

/-- Modelled from the spec: the neutral element `Identity`. -/
def Identity : Matrix2D := ⟨1, 0, 0, 1, 0, 0⟩

/-- Modelled from the spec: matrix product `mult` (affine composition). -/
def Matrix2D.Mult (a b : Matrix2D) : Matrix2D :=
  { A := a.A * b.A + a.C * b.B
    B := a.B * b.A + a.D * b.B
    C := a.A * b.C + a.C * b.D
    D := a.B * b.C + a.D * b.D
    E := a.A * b.E + a.C * b.F + a.E
    F := a.B * b.E + a.D * b.F + a.F }

/-- Modelled from the spec: the affine map (x,y) ↦ (A·x+C·y+E, B·x+D·y+F). -/
def Matrix2D.apply (m : Matrix2D) (p : ℚ × ℚ) : ℚ × ℚ :=
  (m.A * p.1 + m.C * p.2 + m.E, m.B * p.1 + m.D * p.2 + m.F)

/-- Modelled from the spec: the translation matrix. -/
def translationMatrix (x y : ℚ) : Matrix2D := ⟨1, 0, 0, 1, x, y⟩

/-- Modelled from the spec: the scaling matrix. -/
def scaleMatrix (x y : ℚ) : Matrix2D := ⟨x, 0, 0, y, 0, 0⟩

/-- Modelled from the spec: the rotation matrix for angle `theta` (radians),
with cosine and sine kept abstract through `R`. -/
def rotationMatrix (R : RealOps) (theta : ℚ) : Matrix2D :=
  ⟨R.cos theta, R.sin theta, -(R.sin theta), R.cos theta, 0, 0⟩

def Matrix2D.Translate (a : Matrix2D) (x y : ℚ) : Matrix2D :=
  a.Mult (translationMatrix x y)

def Matrix2D.Scale (a : Matrix2D) (x y : ℚ) : Matrix2D :=
  a.Mult (scaleMatrix x y)

def Matrix2D.Rotate (R : RealOps) (a : Matrix2D) (theta : ℚ) : Matrix2D :=
  a.Mult (rotationMatrix R theta)

def Matrix2D.SkewX (R : RealOps) (a : Matrix2D) (theta : ℚ) : Matrix2D :=
  a.Mult ⟨1, 0, R.tan theta, 1, 0, 0⟩

def Matrix2D.SkewY (R : RealOps) (a : Matrix2D) (theta : ℚ) : Matrix2D :=
  a.Mult ⟨1, R.tan theta, 0, 1, 0, 0⟩

/-- Truncation toward zero, Go's float-to-integer conversion. -/
def qtrunc (q : ℚ) : ℤ := q.num / q.den

/-- `fixed.Point26_6`: a pair of 26.6 fixed-point coordinates. -/
structure P26 where
  x : ℤ
  y : ℤ
  deriving DecidableEq, Repr

/-- `ToFixedP` / `fixed.Int26_6(v * 64)`: conversion multiplies by 64. -/
def toFixedP (a b : ℚ) : P26 := ⟨qtrunc (a * 64), qtrunc (b * 64)⟩

/-- Modelled from the spec: transform application to a driver point
(the matrix is applied to the fixed-point coordinates, translation scaled
by 64, truncating like the Go conversion). -/
def Matrix2D.trPoint (m : Matrix2D) (p : P26) : P26 :=
  ⟨qtrunc ((p.x : ℚ) * m.A + (p.y : ℚ) * m.C + m.E * 64),
   qtrunc ((p.x : ℚ) * m.B + (p.y : ℚ) * m.D + m.F * 64)⟩

/-- `Operation` (file path.go): the five low-level path commands. -/
inductive PathOp where
  | moveTo (p : P26)
  | lineTo (p : P26)
  | quadTo (b c : P26)
  | cubicTo (b c d : P26)
  | close
  deriving DecidableEq, Repr

/-- `Path`: an ordered sequence of path operations. -/
abbrev SvgOpsPath := List PathOp

/-- `Path.Start` (path.go): appends a MoveTo. -/
def SvgOpsPath.start (p : SvgOpsPath) (a : P26) : SvgOpsPath :=
  List.append p [PathOp.moveTo a]

/-- `Path.Line` (path.go): appends a LineTo. -/
def SvgOpsPath.line (p : SvgOpsPath) (b : P26) : SvgOpsPath :=
  List.append p [PathOp.lineTo b]

/-- `Path.QuadBezier` (path.go): appends a QuadTo. -/
def SvgOpsPath.quadBezier (p : SvgOpsPath) (b c : P26) : SvgOpsPath :=
  List.append p [PathOp.quadTo b c]

/-- `Path.CubeBezier` (path.go): appends a CubicTo. -/
def SvgOpsPath.cubeBezier (p : SvgOpsPath) (b c d : P26) : SvgOpsPath :=
  List.append p [PathOp.cubicTo b c d]

/-- `Path.Stop` (path.go): appends a Close when `closeLoop` is set. -/
def SvgOpsPath.stop (p : SvgOpsPath) (closeLoop : Bool) : SvgOpsPath :=
  if closeLoop then List.append p [PathOp.close] else p

/-- The error values surfaced by the parser (Go `error` values). -/
inductive SvgError where
  | paramMismatch
  | zeroLengthID
  | invalidNumber
  | oddPolygonPoints
  | unknownElement (tag : String)
  | useMissingHref
  | useBadHref
  | useNotFound
  | fuelExhausted
  | invalidSvg
  deriving DecidableEq, Repr

/-! String helpers. The Go code uses the `strings` host package; these are
structural reimplementations over the character list so that concrete runs
reduce inside the kernel. All inputs of interest are ASCII. -/

def wsChar (c : Char) : Bool :=
  c = ' ' ∨ c = '\t' ∨ c = '\n' ∨ c = '\r'

/-- `strings.TrimSpace`. -/
def sTrim (s : String) : String :=
  String.mk (((s.data.dropWhile wsChar).reverse.dropWhile wsChar).reverse)

def charToLower (c : Char) : Char :=
  match c with
  | 'A' => 'a' | 'B' => 'b' | 'C' => 'c' | 'D' => 'd' | 'E' => 'e'
  | 'F' => 'f' | 'G' => 'g' | 'H' => 'h' | 'I' => 'i' | 'J' => 'j'
  | 'K' => 'k' | 'L' => 'l' | 'M' => 'm' | 'N' => 'n' | 'O' => 'o'
  | 'P' => 'p' | 'Q' => 'q' | 'R' => 'r' | 'S' => 's' | 'T' => 't'
  | 'U' => 'u' | 'V' => 'v' | 'W' => 'w' | 'X' => 'x' | 'Y' => 'y'
  | 'Z' => 'z' | other => other

/-- `strings.ToLower` (ASCII). -/
def sToLower (s : String) : String := String.mk (s.data.map charToLower)

/-- `strings.HasSuffix`. -/
def sEndsWith (s suf : String) : Bool := List.isSuffixOf suf.data s.data

/-- `strings.HasPrefix`. -/
def sStartsWith (s pre : String) : Bool := List.isPrefixOf pre.data s.data

def sLength (s : String) : ℕ := s.data.length

def sDrop (s : String) (n : ℕ) : String := String.mk (s.data.drop n)

def sDropRight (s : String) (n : ℕ) : String :=
  String.mk (s.data.take (s.data.length - n))

def splitChAux (sep : Char) : List Char → List Char → List (List Char)
  | [], cur => [cur.reverse]
  | c :: rest, cur =>
    if c = sep then cur.reverse :: splitChAux sep rest []
    else splitChAux sep rest (c :: cur)

/-- `strings.Split` with a one-character separator (keeps empty pieces). -/
def sSplitOnChar (s : String) (sep : Char) : List String :=
  (splitChAux sep s.data []).map String.mk

def splitPredAux (p : Char → Bool) : List Char → List Char → List (List Char)
  | [], cur => [cur.reverse]
  | c :: rest, cur =>
    if p c then cur.reverse :: splitPredAux p rest []
    else splitPredAux p rest (c :: cur)

/-- `strings.FieldsFunc`: split on the predicate, dropping empty pieces. -/
def sFields (s : String) (p : Char → Bool) : List String :=
  ((splitPredAux p s.data []).filter (fun t => t ≠ [])).map String.mk

/-- Modelled from the spec: one numeric token (optional sign, integer and
fractional digits, optional exponent). Consumes leading digits, returning
their value, their count and the remaining characters. -/
def takeDigits : List Char → ℚ → ℕ → ℚ × ℕ × List Char
  | [], acc, n => (acc, n, [])
  | c :: rest, acc, n =>
    if c.isDigit then takeDigits rest (acc * 10 + (c.toNat - 48 : ℕ)) (n + 1)
    else (acc, n, c :: rest)

/-- Modelled from the spec: parse a complete numeric token
(`strconv.ParseFloat` on one token); `none` when the token is garbage. -/
def parseNum (cs : List Char) : Option ℚ :=
  let sgn : ℚ × List Char :=
    match cs with
    | '-' :: r => (-1, r)
    | '+' :: r => (1, r)
    | _ => (1, cs)
  let intp := takeDigits sgn.2 0 0
  let frac : ℚ × ℕ × List Char :=
    match intp.2.2 with
    | '.' :: r => takeDigits r 0 0
    | _ => (0, 0, intp.2.2)
  if intp.2.1 + frac.2.1 = 0 then none
  else
    let mant : ℚ := sgn.1 * (intp.1 + frac.1 / 10 ^ frac.2.1)
    match frac.2.2 with
    | [] => some mant
    | e :: r =>
      if e = 'e' ∨ e = 'E' then
        let esgn : ℤ × List Char :=
          match r with
          | '-' :: rr => (-1, rr)
          | '+' :: rr => (1, rr)
          | _ => (1, r)
        let ev := takeDigits esgn.2 0 0
        if ev.2.1 = 0 ∨ ev.2.2 ≠ [] then none
        else some (mant * 10 ^ (esgn.1 * qtrunc ev.1))
      else none

/-- Modelled from the spec (§4.1): split an attribute string into numeric
tokens. Separators are runs of whitespace and commas; a sign directly after
a digit or a dot starts a new token; a second dot in a token starts a new
token. The current token is accumulated in reverse. -/
def numTokens : List Char → List Char → List (List Char) → List (List Char)
  | [], cur, acc => if cur = [] then acc else List.append acc [cur.reverse]
  | c :: rest, cur, acc =>
    if c = ' ' ∨ c = '\t' ∨ c = '\n' ∨ c = '\r' ∨ c = ',' then
      if cur = [] then numTokens rest [] acc
      else numTokens rest [] (List.append acc [cur.reverse])
    else if (c = '-' ∨ c = '+') ∧ (match cur with
        | d :: _ => d.isDigit ∨ d = '.'
        | [] => false : Bool) = true then
      numTokens rest [c] (List.append acc [cur.reverse])
    else if c = '.' ∧ cur.contains '.' then
      numTokens rest [c] (List.append acc [cur.reverse])
    else
      numTokens rest (c :: cur) acc

/-- Modelled from the spec: parse the token list left to right; on the first
bad token the successfully parsed prefix is kept and an error is reported
(the cursor's float buffer keeps the prefix, like the source). -/
def parseTokens : List (List Char) → List ℚ → List ℚ × Option SvgError
  | [], acc => (acc, none)
  | t :: ts, acc =>
    match parseNum t with
    | some v => parseTokens ts (List.append acc [v])
    | none => (acc, some SvgError.invalidNumber)

/-- Modelled from the spec: `getPoints` — tokenise a comma-or-whitespace
separated list into the cursor's float buffer (the buffer is reset first). -/
def getPointsRaw (s : String) : List ℚ × Option SvgError :=
  parseTokens (numTokens s.data [] []) []

/-- Modelled from the spec: `parseFloat` — the whole string must be one
numeric token. -/
def parseFloatQ (s : String) : Option ℚ := parseNum s.data

/-- `color.NRGBA`: a plain 8-bit color. -/
structure RGBA where
  r : ℕ
  g : ℕ
  b : ℕ
  a : ℕ
  deriving DecidableEq, Repr

/-- `NewPlainColor`. -/
def NewPlainColor (r g b a : ℕ) : RGBA := ⟨r, g, b, a⟩

def blackColor : RGBA := ⟨0, 0, 0, 255⟩

inductive JoinMode where
  | arc | round | bevel | miter | miterClip | arcClip
  deriving DecidableEq, Repr

inductive CapMode where
  | nilCap | buttCap | squareCap | roundCap | cubicCap | quadraticCap
  deriving DecidableEq, Repr

inductive GapMode where
  | nilGap | flatGap | roundGap | cubicGap | quadraticGap
  deriving DecidableEq, Repr

structure JoinOptions where
  miterLimit : ℤ
  lineJoin : JoinMode
  trailLineCap : CapMode
  leadLineCap : CapMode
  lineGap : GapMode
  deriving DecidableEq, Repr

structure DashOptions where
  dash : List ℚ
  dashOffset : ℚ
  deriving DecidableEq, Repr

inductive GradientUnits where
  | objectBoundingBox | userSpaceOnUse
  deriving DecidableEq, Repr

inductive SpreadMethod where
  | padSpread | reflectSpread | repeatSpread
  deriving DecidableEq, Repr

/-- `Linear` ([4]float64) or `Radial` ([6]float64) gradient direction. -/
inductive GradDirection where
  | linear (x1 y1 x2 y2 : ℚ)
  | radial (cx cy fx fy r fr : ℚ)
  deriving DecidableEq, Repr

/-- `Bounds`: a viewport or path-extent rectangle. -/
structure SvgBounds where
  x : ℚ
  y : ℚ
  w : ℚ
  h : ℚ
  deriving DecidableEq, Repr

/-- `GradStop`: a stop of an SVG gradient; `stopColor = none` models a nil
`color.Color`. -/
structure GradStop where
  stopColor : Option RGBA
  offset : ℚ
  opacity : ℚ
  deriving DecidableEq, Repr

/-- `Gradient`: direction, stops, bounds, local matrix, spread and units. -/
structure Gradient where
  direction : GradDirection
  stops : List GradStop
  bounds : SvgBounds
  matrix : Matrix2D
  spread : SpreadMethod
  units : GradientUnits
  deriving DecidableEq, Repr

/-- `Pattern`: a non-nil paint (plain color or gradient); a Go nil `Pattern`
interface value is modelled by `Option.none` at use sites. -/
inductive Pattern where
  | plain (c : RGBA)
  | grad (g : Gradient)
  deriving DecidableEq, Repr

/-- `PathStyle` (svgicon/parse.go). -/
structure PathStyle where
  fillOpacity : ℚ
  lineOpacity : ℚ
  lineWidth : ℚ
  useNonZeroWinding : Bool
  join : JoinOptions
  dash : DashOptions
  fillerColor : Option Pattern
  linerColor : Option Pattern
  transform : Matrix2D
  deriving DecidableEq, Repr

/-- `fToFixed`: float to 26.6 fixed. -/
def fToFixed (f : ℚ) : ℤ := qtrunc (f * 64)

/-- `DefaultStyle` (svgicon/parse.go): black fill, nonzero winding, full
opacity, no stroke, ButtCap, Bevel join, miter limit 4. -/
def DefaultStyle : PathStyle :=
  { fillOpacity := 1
    lineOpacity := 1
    lineWidth := 2
    useNonZeroWinding := true
    join :=
      { miterLimit := fToFixed 4
        lineJoin := JoinMode.bevel
        trailLineCap := CapMode.buttCap
        leadLineCap := CapMode.nilCap
        lineGap := GapMode.nilGap }
    dash := { dash := [], dashOffset := 0 }
    fillerColor := some (Pattern.plain (NewPlainColor 0 0 0 255))
    linerColor := none
    transform := Identity }

/-- `Unite` (units.go): absolute units plus percentage. -/
inductive Unite where
  | px | cm | mm | pt | inch | q | pc | perc
  deriving DecidableEq, Repr

/-- `absoluteUnits` (units.go), in declaration order. -/
def absoluteUnits : List (Unite × String) :=
  [(Unite.px, "px"), (Unite.cm, "cm"), (Unite.mm, "mm"), (Unite.pt, "pt"),
   (Unite.inch, "in"), (Unite.q, "Q"), (Unite.pc, "pc"), (Unite.perc, "%")]

/-- `toPx` (units.go): conversion ratios to pixels. -/
def toPx (u : Unite) : ℚ :=
  match u with
  | Unite.px => 1
  | Unite.cm => 96 / (254 / 100)
  | Unite.mm => (96 / 10) / (254 / 100)
  | Unite.pt => 96 / 72
  | Unite.inch => 96
  | Unite.q => 96 / 40 / (254 / 100)
  | Unite.pc => 96 / 6
  | Unite.perc => 1

/-- `findUnit` (units.go): trim, then look for the first matching suffix. -/
def findUnit (s : String) : Unite × String :=
  let t := sTrim s
  let rec go : List (Unite × String) → Unite × String
    | [] => (Unite.px, t)
    | (u, suf) :: rest =>
      if sEndsWith t suf then (u, sTrim (sDropRight t (sLength suf))) else go rest
  go absoluteUnits

/-- `parseUnit` (units.go, package-level): convert to pixels, flag `%`. -/
def parseUnitRaw (s : String) : Option (ℚ × Bool) :=
  let fu := findUnit s
  match parseFloatQ fu.2 with
  | some v => some (v * toPx fu.1, fu.1 = Unite.perc)
  | none => none

inductive PercentageReference where
  | widthPercentage | heightPercentage | diagPercentage
  deriving DecidableEq, Repr

/-- `iconCursor.parseUnit` (units.go): resolve percentages against the
viewBox; the diagonal reference uses `sqrt`, kept abstract in `R`. -/
def parseUnitVB (R : RealOps) (vb : SvgBounds) (s : String)
    (asPerc : PercentageReference) : Option ℚ :=
  match parseUnitRaw s with
  | none => none
  | some (value, isPercentage) =>
    if isPercentage then
      match asPerc with
      | PercentageReference.widthPercentage => some (value / 100 * vb.w)
      | PercentageReference.heightPercentage => some (value / 100 * vb.h)
      | PercentageReference.diagPercentage =>
        some (value / 100 * (R.sqrt (vb.w * vb.w + vb.h * vb.h) / R.sqrt 2))
    else some value

/-- `parseBasicFloat` (units.go): value of `parseUnit`, percentage ignored. -/
def parseBasicFloat (s : String) : Option ℚ :=
  match parseUnitRaw s with
  | some (v, _) => some v
  | none => none

def hexDigit (c : Char) : Option ℕ :=
  if c.isDigit then some (c.toNat - 48)
  else if 'a' ≤ c ∧ c ≤ 'f' then some (c.toNat - 87)
  else if 'A' ≤ c ∧ c ≤ 'F' then some (c.toNat - 55)
  else none

def hexByte (a b : Char) : Option ℕ :=
  match hexDigit a, hexDigit b with
  | some x, some y => some (x * 16 + y)
  | _, _ => none

/-- `parseColorValue` (ported from svgpath/parse.go): an `rgb(...)`
component, either a percentage or an integer clamped above at 255. -/
def parseColorValue (v : String) : Option ℕ :=
  let v := sTrim v
  if sEndsWith v "%" then
    match parseFloatQ (sTrim (sDropRight v 1)) with
    | some n => some ((qtrunc n * 255 / 100).toNat % 256)
    | none => none
  else
    match parseFloatQ v with
    | some n => if qtrunc n > 255 then some 255 else some ((qtrunc n).toNat % 256)
    | none => none

def namedColors : List (String × RGBA) :=
  [("black", ⟨0, 0, 0, 255⟩), ("white", ⟨255, 255, 255, 255⟩),
   ("red", ⟨255, 0, 0, 255⟩), ("lime", ⟨0, 255, 0, 255⟩),
   ("blue", ⟨0, 0, 255, 255⟩), ("green", ⟨0, 128, 0, 255⟩),
   ("yellow", ⟨255, 255, 0, 255⟩), ("gray", ⟨128, 128, 128, 255⟩)]

/-- Modelled from the spec: `parseSVGColor` (the svgicon copy is not under
`src/`; logic ported from svgpath `ParseSVGColor`, with the host
`colornames` table restricted to a representative subset). The outer
`Except` is the parse error; the inner `Option` is `none` for the keyword
`none`, which disables the paint phase. -/
def parseSVGColor (colorStr : String) : Except SvgError (Option RGBA) :=
  let v := sToLower colorStr
  if sStartsWith v "url" then Except.ok (some ⟨0, 0, 0, 255⟩)
  else if v = "none" then Except.ok none
  else
    match (namedColors.filter (fun p => p.1 = v)).head? with
    | some p => Except.ok (some p.2)
    | none =>
      if sStartsWith v "rgb(" then
        let inner := sDropRight (sDrop v 4) (if sEndsWith v ")" then 1 else 0)
        let vals := sSplitOnChar inner ','
        if vals.length ≠ 3 then Except.error SvgError.paramMismatch
        else
          match parseColorValue (vals.getD 0 ""), parseColorValue (vals.getD 1 ""),
              parseColorValue (vals.getD 2 "") with
          | some a, some b, some c => Except.ok (some ⟨a, b, c, 255⟩)
          | _, _, _ => Except.error SvgError.paramMismatch
      else if sStartsWith colorStr "#" then
        let h := sDrop colorStr 1
        let cs := if sLength h = 6 then h.data
          else match h.data with
            | [a, b, c] => [a, a, b, b, c, c]
            | other => other
        match cs with
        | [a, b, c, d, e, f] =>
          match hexByte a b, hexByte c d, hexByte e f with
          | some r, some g, some bl => Except.ok (some ⟨r, g, bl, 255⟩)
          | _, _, _ => Except.error SvgError.paramMismatch
        | _ => Except.error SvgError.paramMismatch
      else Except.error SvgError.paramMismatch

/-- `optionnalColor.asPattern`: `none` stays a nil paint. -/
def asPattern (oc : Option RGBA) : Option Pattern := oc.map Pattern.plain

/-- `SvgPath` binds a style to a path. -/
structure SvgPath where
  path : SvgOpsPath
  style : PathStyle
  deriving DecidableEq, Repr

/-- `definition`: a recorded defs-mode start element. -/
structure Definition where
  id : String
  tag : String
  attrs : List (String × String)
  deriving DecidableEq, Repr

/-- `ErrorMode` for unrecognised elements. -/
inductive ErrorMode where
  | ignore | warn | strict
  deriving DecidableEq, Repr

/-- `SvgIcon` (svgicon): the compiled document. The Go `grads` map of
pointers and `defs` map are modelled as association lists. -/
structure SvgIcon where
  viewBox : SvgBounds
  titles : List String
  descriptions : List String
  svgPaths : List SvgPath
  transform : Matrix2D
  grads : List (String × Gradient)
  defs : List (String × List Definition)
  deriving DecidableEq, Repr

def emptyIcon : SvgIcon :=
  { viewBox := ⟨0, 0, 0, 0⟩, titles := [], descriptions := [], svgPaths := []
    transform := Identity, grads := [], defs := [] }

/-- Association-list update-or-insert, modelling Go map assignment. -/
def assocSet {α : Type} (l : List (String × α)) (k : String) (v : α) :
    List (String × α) :=
  if l.any (fun p => p.1 = k) then
    l.map (fun p => if p.1 = k then (k, v) else p)
  else List.append l [(k, v)]

def assocGet {α : Type} (l : List (String × α)) (k : String) : Option α :=
  (l.filter (fun p => p.1 = k)).head?.map (fun p => p.2)

/-- `iconCursor` (svgicon/parse.go). The Go field `grad` is a pointer into
the `grads` map; it is modelled by the gradient value `grad` plus the key
`gradID` it is stored under (if any), and every mutation of the current
gradient is mirrored into the map, reproducing the pointer aliasing. -/
structure IconCursor where
  path : SvgOpsPath
  points : List ℚ
  curX : ℚ
  curY : ℚ
  icon : SvgIcon
  styleStack : List PathStyle
  grad : Option Gradient
  gradID : Option String
  inTitleText : Bool
  inDescText : Bool
  inGrad : Bool
  inDefs : Bool
  currentDef : List Definition
  errorMode : ErrorMode
  deriving DecidableEq, Repr

def initialCursor (mode : ErrorMode) : IconCursor :=
  { path := [], points := [], curX := 0, curY := 0, icon := emptyIcon
    styleStack := [DefaultStyle], grad := none, gradID := none
    inTitleText := false, inDescText := false, inGrad := false, inDefs := false
    currentDef := [], errorMode := mode }

/-- Write the current gradient value, mirroring it into the `grads` map when
it is stored there (Go pointer semantics). -/
def IconCursor.setGrad (c : IconCursor) (g : Gradient) : IconCursor :=
  let icon' :=
    match c.gradID with
    | some id => { c.icon with grads := assocSet c.icon.grads id g }
    | none => c.icon
  { c with grad := some g, icon := icon' }

/-- `iconCursor.getPoints`: refill the shared float buffer. -/
def IconCursor.getPoints (c : IconCursor) (s : String) :
    IconCursor × Option SvgError :=
  let r := getPointsRaw s
  ({ c with points := r.1 }, r.2)

/-- The top of the style stack (`c.styleStack[len(c.styleStack)-1]`). -/
def IconCursor.topStyle (c : IconCursor) : PathStyle :=
  c.styleStack.getLastD DefaultStyle

/-- Pop the style stack (`c.styleStack = c.styleStack[:len-1]`). -/
def IconCursor.popStyle (c : IconCursor) : IconCursor :=
  { c with styleStack := c.styleStack.dropLast }

/-- `getColor` (svgpath/parse.go, ported for the svgicon paint type): the
effective color of the current paint — the first non-nil stop color of a
gradient paint, a plain color itself, black otherwise. -/
def getColorOfPaint (p : Option Pattern) : RGBA :=
  match p with
  | some (Pattern.grad g) =>
    match (g.stops.filter (fun s => s.stopColor ≠ none)).head? with
    | some s => s.stopColor.getD blackColor
    | none => blackColor
  | some (Pattern.plain c) => c
  | none => blackColor

/-- The stop substitution performed by `localizeGradIfStopClrNil`: a nil
stop color is replaced by `clr`. -/
def substStop (clr : RGBA) (s : GradStop) : GradStop :=
  if s.stopColor = none then { s with stopColor := some clr } else s

/-- `localizeGradIfStopClrNil` (svgpath/parse.go, ported for the svgicon
paint type, value level): copy the gradient; when some stop color is nil,
copy the stop slice and fill nil colors with the current paint's effective
color. -/
def localizeGrad (g : Gradient) (defaultColor : Option Pattern) : Gradient :=
  if g.stops.any (fun s => s.stopColor = none) then
    { g with stops := g.stops.map (substStop (getColorOfPaint defaultColor)) }
  else g

/-- Modelled from the spec: `readGradURL` (the svgicon copy is not under
`src/`; logic ported from svgpath `ReadGradURL`): recognise `url(#id)`,
look the id up in the gradient table and localize a value copy. `none`
when the value is not a resolvable gradient URL. -/
def IconCursor.readGradURL (c : IconCursor) (v : String)
    (defaultColor : Option Pattern) : Option Gradient :=
  if sStartsWith v "url(" ∧ sEndsWith v ")" then
    let urlStr := sTrim (sDropRight (sDrop v 4) 1)
    if sStartsWith urlStr "#" then
      match assocGet c.icon.grads (sDrop urlStr 1) with
      | some g => some (localizeGrad g defaultColor)
      | none => none
    else none
  else none

/-- `iconCursor.readTransformAttr` (svgicon/parse.go): one transform
function applied to `m1`; the argument list is the cursor's float buffer. -/
def readTransformAttr (R : RealOps) (points : List ℚ) (m1 : Matrix2D)
    (k : String) : Except SvgError Matrix2D :=
  let ln := points.length
  if k = "rotate" then
    if ln = 1 then
      Except.ok (m1.Rotate R (points.getD 0 0 * R.pi / 180))
    else if ln = 3 then
      Except.ok ((((m1.Translate (points.getD 1 0) (points.getD 2 0)).Rotate R
        (points.getD 0 0 * R.pi / 180)).Translate (-points.getD 1 0)
        (-points.getD 2 0)))
    else Except.error SvgError.paramMismatch
  else if k = "translate" then
    if ln = 1 then Except.ok (m1.Translate (points.getD 0 0) 0)
    else if ln = 2 then
      Except.ok (m1.Translate (points.getD 0 0) (points.getD 1 0))
    else Except.error SvgError.paramMismatch
  else if k = "skewx" then
    if ln = 1 then Except.ok (m1.SkewX R (points.getD 0 0 * R.pi / 180))
    else Except.error SvgError.paramMismatch
  else if k = "skewy" then
    if ln = 1 then Except.ok (m1.SkewY R (points.getD 0 0 * R.pi / 180))
    else Except.error SvgError.paramMismatch
  else if k = "scale" then
    if ln = 1 then Except.ok (m1.Scale (points.getD 0 0) 0)
    else if ln = 2 then
      Except.ok (m1.Scale (points.getD 0 0) (points.getD 1 0))
    else Except.error SvgError.paramMismatch
  else if k = "matrix" then
    if ln = 6 then
      Except.ok (m1.Mult ⟨points.getD 0 0, points.getD 1 0, points.getD 2 0,
        points.getD 3 0, points.getD 4 0, points.getD 5 0⟩)
    else Except.error SvgError.paramMismatch
  else Except.error SvgError.paramMismatch

/-- `iconCursor.parseTransform` (svgicon/parse.go): split the attribute on
`)` into `func(args` chunks, feed the args through the shared float buffer
and fold `readTransformAttr` over the chunks, starting from the parent
transform (top of the style stack). -/
def parseTransformChunks (R : RealOps) : List String → IconCursor → Matrix2D →
    IconCursor × Except SvgError Matrix2D
  | [], c, m1 => (c, Except.ok m1)
  | t :: ts, c, m1 =>
    let t := sTrim t
    if sLength t = 0 then parseTransformChunks R ts c m1
    else
      let d := sSplitOnChar t '('
      if d.length ≠ 2 ∨ sLength (d.getD 1 "") < 1 then
        (c, Except.error SvgError.paramMismatch)
      else
        let gp := c.getPoints (d.getD 1 "")
        match gp.2 with
        | some e => (gp.1, Except.error e)
        | none =>
          match readTransformAttr R gp.1.points m1
              (sToLower (sTrim (d.getD 0 ""))) with
          | Except.ok m2 => parseTransformChunks R ts gp.1 m2
          | Except.error e => (gp.1, Except.error e)

def IconCursor.parseTransform (R : RealOps) (c : IconCursor) (v : String) :
    IconCursor × Except SvgError Matrix2D :=
  parseTransformChunks R (sSplitOnChar v ')') c c.topStyle.transform

/-- `splitOnCommaOrSpace` (svgicon/parse.go). -/
def splitOnCommaOrSpace (s : String) : List String :=
  sFields s (fun r => r = ',' ∨ r = ' ')

def parseDashes : List String → List ℚ → Option (List ℚ)
  | [], acc => some acc
  | d :: ds, acc =>
    match parseFloatQ (sTrim d) with
    | some v => parseDashes ds (List.append acc [v])
    | none => none

/-- `iconCursor.readStyleAttr` (svgicon/parse.go): apply one recognised
style attribute to the style frame under construction. The cursor is
threaded because gradient URL resolution reads the gradient table and
transform parsing mutates the shared float buffer. -/
def readStyleAttr (R : RealOps) (c : IconCursor) (s : PathStyle)
    (k v : String) : IconCursor × PathStyle × Option SvgError :=
  if k = "fill" then
    match c.readGradURL v s.fillerColor with
    | some gradient => (c, { s with fillerColor := some (Pattern.grad gradient) }, none)
    | none =>
      match parseSVGColor v with
      | Except.ok optCol => (c, { s with fillerColor := asPattern optCol }, none)
      | Except.error e => (c, { s with fillerColor := none }, some e)
  else if k = "stroke" then
    match c.readGradURL v s.linerColor with
    | some gradient => (c, { s with linerColor := some (Pattern.grad gradient) }, none)
    | none =>
      match parseSVGColor v with
      | Except.ok col => (c, { s with linerColor := asPattern col }, none)
      | Except.error e => (c, s, some e)
  else if k = "stroke-linegap" then
    let g := s.join.lineGap
    let g := if v = "flat" then GapMode.flatGap else g
    let g := if v = "round" then GapMode.roundGap else g
    let g := if v = "cubic" then GapMode.cubicGap else g
    let g := if v = "quadratic" then GapMode.quadraticGap else g
    (c, { s with join := { s.join with lineGap := g } }, none)
  else if k = "stroke-leadlinecap" then
    let m := s.join.leadLineCap
    let m := if v = "butt" then CapMode.buttCap else m
    let m := if v = "round" then CapMode.roundCap else m
    let m := if v = "square" then CapMode.squareCap else m
    let m := if v = "cubic" then CapMode.cubicCap else m
    let m := if v = "quadratic" then CapMode.quadraticCap else m
    (c, { s with join := { s.join with leadLineCap := m } }, none)
  else if k = "stroke-linecap" then
    let m := s.join.trailLineCap
    let m := if v = "butt" then CapMode.buttCap else m
    let m := if v = "round" then CapMode.roundCap else m
    let m := if v = "square" then CapMode.squareCap else m
    let m := if v = "cubic" then CapMode.cubicCap else m
    let m := if v = "quadratic" then CapMode.quadraticCap else m
    (c, { s with join := { s.join with trailLineCap := m } }, none)
  else if k = "stroke-linejoin" then
    let j := s.join.lineJoin
    let j := if v = "miter" then JoinMode.miter else j
    let j := if v = "miter-clip" then JoinMode.miterClip else j
    let j := if v = "arc-clip" then JoinMode.arcClip else j
    let j := if v = "round" then JoinMode.round else j
    let j := if v = "arc" then JoinMode.arc else j
    let j := if v = "bevel" then JoinMode.bevel else j
    (c, { s with join := { s.join with lineJoin := j } }, none)
  else if k = "stroke-miterlimit" then
    match parseFloatQ v with
    | some m => (c, { s with join := { s.join with miterLimit := fToFixed m } }, none)
    | none => (c, s, some SvgError.invalidNumber)
  else if k = "stroke-width" then
    match parseFloatQ v with
    | some w => (c, { s with lineWidth := w }, none)
    | none => (c, s, some SvgError.invalidNumber)
  else if k = "stroke-dashoffset" then
    match parseFloatQ v with
    | some o => (c, { s with dash := { s.dash with dashOffset := o } }, none)
    | none => (c, s, some SvgError.invalidNumber)
  else if k = "stroke-dasharray" then
    if v ≠ "none" then
      match parseDashes (splitOnCommaOrSpace v) [] with
      | some dList => (c, { s with dash := { s.dash with dash := dList } }, none)
      | none => (c, s, some SvgError.invalidNumber)
    else (c, s, none)
  else if k = "opacity" ∨ k = "stroke-opacity" ∨ k = "fill-opacity" then
    match parseFloatQ v with
    | some op =>
      let s := if k ≠ "stroke-opacity" then
          { s with fillOpacity := s.fillOpacity * op } else s
      let s := if k ≠ "fill-opacity" then
          { s with lineOpacity := s.lineOpacity * op } else s
      (c, s, none)
    | none => (c, s, some SvgError.invalidNumber)
  else if k = "transform" then
    match c.parseTransform R v with
    | (c', Except.ok m) => (c', { s with transform := m }, none)
    | (c', Except.error e) => (c', s, some e)
  else (c, s, none)

/-- The attribute-to-pair expansion of `pushStyle`: a `style` attribute is
split on `;`, any other attribute becomes `name:value`. -/
def stylePairs : List (String × String) → List String
  | [] => []
  | (n, v) :: rest =>
    if sToLower n = "style" then List.append (sSplitOnChar v ';') (stylePairs rest)
    else List.append [n ++ ":" ++ v] (stylePairs rest)

def applyStylePairs (R : RealOps) : List String → IconCursor → PathStyle →
    IconCursor × PathStyle × Option SvgError
  | [], c, s => (c, s, none)
  | pair :: rest, c, s =>
    let kv := sSplitOnChar pair ':'
    if kv.length ≥ 2 then
      let k := sTrim (sToLower (kv.getD 0 ""))
      let v := sTrim (kv.getD 1 "")
      match readStyleAttr R c s k v with
      | (c', s', none) => applyStylePairs R rest c' s'
      | (c', s', some e) => (c', s', some e)
    else applyStylePairs R rest c s

/-- `iconCursor.pushStyle` (svgicon/parse.go): copy the top style frame,
apply the recognised attributes, push the copy. -/
def IconCursor.pushStyle (R : RealOps) (c : IconCursor)
    (attrs : List (String × String)) : IconCursor × Option SvgError :=
  match applyStylePairs R (stylePairs attrs) c c.topStyle with
  | (c', s', none) =>
    ({ c' with styleStack := List.append c'.styleStack [s'] }, none)
  | (c', _, some e) => (c', some e)

/-- Transform a point given in user units: fix it, then apply the matrix. -/
def trUser (m : Matrix2D) (a b : ℚ) : P26 := m.trPoint (toFixedP a b)

/-- `AddRect` (svgpath/shapes.go): a closed 4-point polygon, rotated about
the center by `rot` degrees. -/
def addRect (R : RealOps) (p : SvgOpsPath) (minX minY maxX maxY rot : ℚ) :
    SvgOpsPath :=
  let rot := rot * R.pi / 180
  let cx := (minX + maxX) / 2
  let cy := (minY + maxY) / 2
  let m := ((Identity.Translate cx cy).Rotate R rot).Translate (-cx) (-cy)
  ((((p.start (trUser m minX minY)).line (trUser m maxX minY)).line
    (trUser m maxX maxY)).line (trUser m minX maxY)).stop true

/-- Modelled from the spec: the round-gap corner emitter used by
`AddRoundRect` (the fillet is a circular-arc approximation by cubic
segments; the claims below do not depend on the sampling, so one cubic
segment is emitted per corner, ending at the corner's exit point). -/
def roundGapSeg (m : Matrix2D) (p : SvgOpsPath) (a s1 s2 : ℚ × ℚ) :
    SvgOpsPath :=
  p.cubeBezier (trUser m (a.1 + s1.1) (a.2 + s1.2))
    (trUser m (a.1 + s2.1) (a.2 + s2.2)) (trUser m (a.1 + s2.1) (a.2 + s2.2))

/-- `AddRoundRect` (svgpath/shapes.go): a rectangle with rounded corners;
`rx ≤ 0` or `ry ≤ 0` degrades to `AddRect`. A non-uniform radius is
handled by a surrounding stretch matrix so only circular arcs are needed. -/
def addRoundRect (R : RealOps) (p : SvgOpsPath)
    (minX minY maxX maxY rx ry rot : ℚ) : SvgOpsPath :=
  if rx ≤ 0 ∨ ry ≤ 0 then addRect R p minX minY maxX maxY rot
  else
    let rot := rot * R.pi / 180
    let w := maxX - minX
    let rx := if w < rx * 2 then w / 2 else rx
    let h := maxY - minY
    let ry := if h < ry * 2 then h / 2 else ry
    let stretch := rx / ry
    let midY := minY + h / 2
    let m := ((((Identity.Translate (minX + w / 2) midY).Rotate R rot).Scale
      1 (1 / stretch)).Translate (-(minX + w / 2)) (-(minY + h / 2)))
    let maxY := midY + h / 2 * stretch
    let minY := midY - h / 2 * stretch
    let p := (p.start (trUser m (minX + rx) minY)).line (trUser m (maxX - rx) minY)
    let p := roundGapSeg m p (maxX - rx, minY + rx) (0, -rx) (rx, 0)
    let p := p.line (trUser m maxX (maxY - rx))
    let p := roundGapSeg m p (maxX - rx, maxY - rx) (rx, 0) (0, rx)
    let p := p.line (trUser m (minX + rx) maxY)
    let p := roundGapSeg m p (minX + rx, maxY - rx) (0, rx) (-rx, 0)
    let p := p.line (trUser m minX (minY + rx))
    let p := roundGapSeg m p (minX + rx, minY + rx) (-rx, 0) (0, -rx)
    p.stop true

/-- Modelled from the spec: `ellipseAt` (not under `src/`): approximate the
full ellipse by cubic segments (8 per half circle), emitting
Move + Cubics + Close. Control points follow Maisonobe's tangent formula,
with the trigonometric values abstract in `R`. -/
def ellipseAt (R : RealOps) (p : SvgOpsPath) (cx cy rx ry : ℚ) : SvgOpsPath :=
  let dTheta := R.pi / 8
  let alpha := R.sin dTheta *
    (R.sqrt (4 + 3 * R.tan (dTheta / 2) * R.tan (dTheta / 2)) - 1) / 3
  let point := fun (k : ℕ) =>
    (cx + rx * R.cos (k * dTheta), cy + ry * R.sin (k * dTheta))
  let deriv := fun (k : ℕ) =>
    (-(rx * R.sin (k * dTheta)), ry * R.cos (k * dTheta))
  let seg := fun (p : SvgOpsPath) (k : ℕ) =>
    let a := point k
    let da := deriv k
    let b := point (k + 1)
    let db := deriv (k + 1)
    p.cubeBezier (toFixedP (a.1 + alpha * da.1) (a.2 + alpha * da.2))
      (toFixedP (b.1 - alpha * db.1) (b.2 - alpha * db.2))
      (toFixedP b.1 b.2)
  (((List.range 16).foldl seg (p.start (toFixedP (cx + rx) cy))).stop true)

/-- A token of the path mini-language: a command letter or a number. -/
inductive PTok where
  | cmd (c : Char)
  | num (q : ℚ)
  deriving DecidableEq, Repr

def isCmdChar (c : Char) : Bool :=
  c.isAlpha ∧ c ≠ 'e' ∧ c ≠ 'E'

def flushNumRun (run : List Char) : Option (List PTok) :=
  let r := parseTokens (numTokens run.reverse [] []) []
  match r.2 with
  | some _ => none
  | none => some (r.1.map PTok.num)

/-- Modelled from the spec (§4.2): tokenise the `d` attribute into command
letters and numbers (the shared numeric lexer handles the number runs). -/
def scanPath : List Char → List Char → Option (List PTok)
  | [], run => flushNumRun run
  | c :: rest, run =>
    if isCmdChar c then
      match flushNumRun run, scanPath rest [] with
      | some nums, some toks => some (List.append nums (PTok.cmd c :: toks))
      | _, _ => none
    else scanPath rest (c :: run)

/-- Group each command letter with its following numbers; leading numbers
are a parse error. -/
def groupPath : List PTok → Option (List (Char × List ℚ))
  | [] => some []
  | PTok.num _ :: _ => none
  | PTok.cmd c :: rest =>
    let nums := rest.takeWhile (fun t => match t with
      | PTok.num _ => true
      | _ => false)
    let vals := nums.filterMap (fun t => match t with
      | PTok.num q => some q
      | _ => none)
    match groupPath (rest.drop nums.length) with
    | some gs => some ((c, vals) :: gs)
    | none => none
termination_by l => l.length
decreasing_by
  simp only [List.length_drop, List.length_cons]
  omega

/-- The path compiler's cursor state (spec §4.2): current point, subpath
start, last control points for S/T reflection, last command family. -/
structure DCursor where
  place : ℚ × ℚ
  substart : ℚ × ℚ
  inPath : Bool
  lastQ : Option (ℚ × ℚ)
  lastC : Option (ℚ × ℚ)
  lastCmd : Char
  path : SvgOpsPath
  deriving DecidableEq, Repr

/-- Split a flat list into consecutive chunks of `n` (callers use n > 0). -/
def chunksOf (n : ℕ) : List ℚ → List (List ℚ)
  | [] => []
  | x :: xs =>
    if n = 0 then []
    else (x :: xs.take (n - 1)) :: chunksOf n (xs.drop (n - 1))
termination_by l => l.length
decreasing_by
  simp only [List.length_drop, List.length_cons]
  omega

def reflectPt (center : ℚ × ℚ) (p : ℚ × ℚ) : ℚ × ℚ :=
  (2 * center.1 - p.1, 2 * center.2 - p.2)

/-- Modelled from the spec (§4.2): execute one path command group. `off` is
the `<use>` cursor offset applied at emission. A drawing command before any
M/m is rejected (the spec's path invariant requires ops to begin with a
Move). Arity errors are `ParamMismatch`. -/
def runPathCmd (off : ℚ × ℚ) (st : DCursor) (cmd : Char) (args : List ℚ) :
    DCursor × Option SvgError :=
  let rel := cmd.isLower
  let k := charToLower cmd
  let em := fun (a : ℚ × ℚ) => toFixedP (a.1 + off.1) (a.2 + off.2)
  let tgt := fun (st : DCursor) (x y : ℚ) =>
    if rel then (st.place.1 + x, st.place.2 + y) else ((x : ℚ), (y : ℚ))
  if k = 'm' then
    if args.length % 2 ≠ 0 ∨ args.length = 0 then (st, some SvgError.paramMismatch)
    else
      match chunksOf 2 args with
      | [] => (st, some SvgError.paramMismatch)
      | first :: restPairs =>
        let p0 := tgt st (first.getD 0 0) (first.getD 1 0)
        let st := { st with place := p0, substart := p0, inPath := true
                            lastQ := none, lastC := none
                            path := st.path.start (em p0) }
        let st := restPairs.foldl (fun st pr =>
          let p := tgt st (pr.getD 0 0) (pr.getD 1 0)
          { st with place := p, path := st.path.line (em p) }) st
        ({ st with lastCmd := k }, none)
  else if ¬st.inPath then (st, some SvgError.paramMismatch)
  else if k = 'l' then
    if args.length % 2 ≠ 0 ∨ args.length = 0 then (st, some SvgError.paramMismatch)
    else
      let st := (chunksOf 2 args).foldl (fun st pr =>
        let p := tgt st (pr.getD 0 0) (pr.getD 1 0)
        { st with place := p, path := st.path.line (em p) }) st
      ({ st with lastCmd := k }, none)
  else if k = 'h' then
    if args.length = 0 then (st, some SvgError.paramMismatch)
    else
      let st := args.foldl (fun st x =>
        let p := if rel then (st.place.1 + x, st.place.2) else (x, st.place.2)
        { st with place := p, path := st.path.line (em p) }) st
      ({ st with lastCmd := k }, none)
  else if k = 'v' then
    if args.length = 0 then (st, some SvgError.paramMismatch)
    else
      let st := args.foldl (fun st y =>
        let p := if rel then (st.place.1, st.place.2 + y) else (st.place.1, y)
        { st with place := p, path := st.path.line (em p) }) st
      ({ st with lastCmd := k }, none)
  else if k = 'c' then
    if args.length % 6 ≠ 0 ∨ args.length = 0 then (st, some SvgError.paramMismatch)
    else
      let st := (chunksOf 6 args).foldl (fun st ch =>
        let c1 := tgt st (ch.getD 0 0) (ch.getD 1 0)
        let c2 := tgt st (ch.getD 2 0) (ch.getD 3 0)
        let p := tgt st (ch.getD 4 0) (ch.getD 5 0)
        { st with place := p, lastC := some c2
                  path := st.path.cubeBezier (em c1) (em c2) (em p) }) st
      ({ st with lastCmd := k }, none)
  else if k = 's' then
    if args.length % 4 ≠ 0 ∨ args.length = 0 then (st, some SvgError.paramMismatch)
    else
      let st := (chunksOf 4 args).foldl (fun st ch =>
        let c1 := if st.lastCmd = 'c' ∨ st.lastCmd = 's' then
            (st.lastC.map (reflectPt st.place)).getD st.place
          else st.place
        let c2 := tgt st (ch.getD 0 0) (ch.getD 1 0)
        let p := tgt st (ch.getD 2 0) (ch.getD 3 0)
        { st with place := p, lastC := some c2, lastCmd := 's'
                  path := st.path.cubeBezier (em c1) (em c2) (em p) }) st
      ({ st with lastCmd := 's' }, none)
  else if k = 'q' then
    if args.length % 4 ≠ 0 ∨ args.length = 0 then (st, some SvgError.paramMismatch)
    else
      let st := (chunksOf 4 args).foldl (fun st ch =>
        let c1 := tgt st (ch.getD 0 0) (ch.getD 1 0)
        let p := tgt st (ch.getD 2 0) (ch.getD 3 0)
        { st with place := p, lastQ := some c1
                  path := st.path.quadBezier (em c1) (em p) }) st
      ({ st with lastCmd := k }, none)
  else if k = 't' then
    if args.length % 2 ≠ 0 ∨ args.length = 0 then (st, some SvgError.paramMismatch)
    else
      let st := (chunksOf 2 args).foldl (fun st ch =>
        let c1 := if st.lastCmd = 'q' ∨ st.lastCmd = 't' then
            (st.lastQ.map (reflectPt st.place)).getD st.place
          else st.place
        let p := tgt st (ch.getD 0 0) (ch.getD 1 0)
        { st with place := p, lastQ := some c1, lastCmd := 't'
                  path := st.path.quadBezier (em c1) (em p) }) st
      ({ st with lastCmd := 't' }, none)
  else if k = 'a' then
    if args.length % 7 ≠ 0 ∨ args.length = 0 then (st, some SvgError.paramMismatch)
    else
      let st := (chunksOf 7 args).foldl (fun st ch =>
        let rx := ch.getD 0 0
        let ry := ch.getD 1 0
        let p := tgt st (ch.getD 5 0) (ch.getD 6 0)
        if rx = 0 ∨ ry = 0 then
          { st with place := p, path := st.path.line (em p) }
        else
          -- Modelled from the spec: the arc is reduced to cubic segments by
          -- Maisonobe's method with the final end point forced to the
          -- literal target; the claims below do not depend on the sampling,
          -- so one representative cubic segment ending exactly at the
          -- target is emitted.
          { st with place := p
                    path := st.path.cubeBezier (em st.place) (em p) (em p) }) st
      ({ st with lastCmd := k }, none)
  else if k = 'z' then
    if args.length ≠ 0 then (st, some SvgError.paramMismatch)
    else
      ({ st with place := st.substart, lastCmd := k
                 path := st.path.stop true }, none)
  else (st, some SvgError.paramMismatch)

def runPathCmds (off : ℚ × ℚ) : List (Char × List ℚ) → DCursor →
    DCursor × Option SvgError
  | [], st => (st, none)
  | (c, args) :: rest, st =>
    match runPathCmd off st c args with
    | (st', none) => runPathCmds off rest st'
    | (st', some e) => (st', some e)

/-- Modelled from the spec (§4.2): `compilePath` — compile a `d` attribute,
appending the resulting operations to the cursor's path. -/
def IconCursor.compilePath (c : IconCursor) (d : String) :
    IconCursor × Option SvgError :=
  match scanPath d.data [] with
  | none => (c, some SvgError.invalidNumber)
  | some toks =>
    match groupPath toks with
    | none => (c, some SvgError.paramMismatch)
    | some groups =>
      let st : DCursor :=
        { place := (0, 0), substart := (0, 0), inPath := false
          lastQ := none, lastC := none, lastCmd := ' ', path := c.path }
      let r := runPathCmds (c.curX, c.curY) groups st
      ({ c with path := r.1.path }, r.2)

/-- XML attribute: local name and value (the host XML decoder is abstract). -/
abbrev Attr := String × String

/-- Generic attribute fold with the source's early-exit on error. -/
def foldAttrs {σ : Type} (step : σ → String → String → σ × Option SvgError) :
    List Attr → σ → σ × Option SvgError
  | [], s => (s, none)
  | (n, v) :: rest, s =>
    match step s n v with
    | (s', none) => foldAttrs step rest s'
    | (s', some e) => (s', some e)

/-- `readFraction` (svgicon/parse.go): a float, `%` divides by 100. -/
def readFraction (v : String) : Option ℚ :=
  let v := sTrim v
  if sEndsWith v "%" then (parseFloatQ (sDropRight v 1)).map (fun f => f / 100)
  else parseFloatQ v

/-- `ReadGradAttr` (svgpath/parse.go; shared gradient attribute handling):
gradientTransform, gradientUnits and spreadMethod mutate the current
gradient (through the stored pointer). -/
def readGradAttr (R : RealOps) (c : IconCursor) (n v : String) :
    IconCursor × Option SvgError :=
  match c.grad with
  | none => (c, none)
  | some g =>
    match n with
    | "gradientTransform" =>
      match c.parseTransform R v with
      | (c', Except.ok m) => (c'.setGrad { g with matrix := m }, none)
      | (c', Except.error e) => (c', some e)
    | "gradientUnits" =>
      match sTrim v with
      | "userSpaceOnUse" =>
        (c.setGrad { g with units := GradientUnits.userSpaceOnUse }, none)
      | "objectBoundingBox" =>
        (c.setGrad { g with units := GradientUnits.objectBoundingBox }, none)
      | _ => (c, none)
    | "spreadMethod" =>
      match sTrim v with
      | "pad" => (c.setGrad { g with spread := SpreadMethod.padSpread }, none)
      | "reflect" => (c.setGrad { g with spread := SpreadMethod.reflectSpread }, none)
      | "repeat" => (c.setGrad { g with spread := SpreadMethod.repeatSpread }, none)
      | _ => (c, none)
    | _ => (c, none)

/-- `svgF` (svgicon/svg_elements.go): viewBox (exactly 4 numbers through the
shared float buffer), width/height fallbacks. -/
def svgF (c : IconCursor) (attrs : List Attr) : IconCursor × Option SvgError :=
  let c := { c with icon := { c.icon with viewBox := ⟨0, 0, 0, 0⟩ } }
  let r := foldAttrs (fun (s : IconCursor × ℚ × ℚ) n v =>
    match n with
    | "viewBox" =>
      let g := s.1.getPoints v
      if g.1.points.length ≠ 4 then
        ((g.1, s.2), some SvgError.paramMismatch)
      else
        let c' := { g.1 with icon := { g.1.icon with viewBox :=
          ⟨g.1.points.getD 0 0, g.1.points.getD 1 0,
           g.1.points.getD 2 0, g.1.points.getD 3 0⟩ } }
        ((c', s.2), g.2)
    | "width" =>
      match parseBasicFloat v with
      | some w => ((s.1, w, s.2.2), none)
      | none => (s, some SvgError.invalidNumber)
    | "height" =>
      match parseBasicFloat v with
      | some h => ((s.1, s.2.1, h), none)
      | none => (s, some SvgError.invalidNumber)
    | _ => (s, none)) attrs (c, 0, 0)
  match r with
  | ((c, width, height), none) =>
    let vb := c.icon.viewBox
    let vb := if vb.w = 0 then { vb with w := width } else vb
    let vb := if vb.h = 0 then { vb with h := height } else vb
    ({ c with icon := { c.icon with viewBox := vb } }, none)
  | ((c, _, _), some e) => (c, some e)

/-- `gF`: `<g>` only pushes a style frame. -/
def gF (c : IconCursor) (_attrs : List Attr) : IconCursor × Option SvgError :=
  (c, none)

def IconCursor.parseUnit (R : RealOps) (c : IconCursor) (s : String)
    (asPerc : PercentageReference) : Option ℚ :=
  parseUnitVB R c.icon.viewBox s asPerc

/-- `rectF` (svgicon/svg_elements.go): a (possibly rounded) rectangle; a
zero width or height draws nothing. -/
def rectF (R : RealOps) (c : IconCursor) (attrs : List Attr) :
    IconCursor × Option SvgError :=
  let pu := fun (v : String) (p : PercentageReference) => c.parseUnit R v p
  let r := foldAttrs (fun (s : ℚ × ℚ × ℚ × ℚ × ℚ × ℚ) n v =>
    let set := fun (p : PercentageReference)
        (upd : ℚ → ℚ × ℚ × ℚ × ℚ × ℚ × ℚ) =>
      match pu v p with
      | some q => (upd q, (none : Option SvgError))
      | none => (s, some SvgError.invalidNumber)
    match n with
    | "x" => set PercentageReference.widthPercentage
        (fun q => (q, s.2))
    | "y" => set PercentageReference.heightPercentage
        (fun q => (s.1, q, s.2.2))
    | "width" => set PercentageReference.widthPercentage
        (fun q => (s.1, s.2.1, q, s.2.2.2))
    | "height" => set PercentageReference.heightPercentage
        (fun q => (s.1, s.2.1, s.2.2.1, q, s.2.2.2.2))
    | "rx" => set PercentageReference.widthPercentage
        (fun q => (s.1, s.2.1, s.2.2.1, s.2.2.2.1, q, s.2.2.2.2.2))
    | "ry" => set PercentageReference.heightPercentage
        (fun q => (s.1, s.2.1, s.2.2.1, s.2.2.2.1, s.2.2.2.2.1, q))
    | _ => (s, none)) attrs (0, 0, 0, 0, 0, 0)
  match r with
  | ((x, y, w, h, rx, ry), none) =>
    if w = 0 ∨ h = 0 then (c, none)
    else
      let p := addRoundRect R c.path (x + c.curX) (y + c.curY)
        (w + x + c.curX) (h + y + c.curY) rx ry 0
      ({ c with path := p }, none)
  | (_, some e) => (c, some e)

/-- `circleF` (svgicon/svg_elements.go, also handles `ellipse`): a zero
radius draws nothing (not an error). -/
def circleF (R : RealOps) (c : IconCursor) (attrs : List Attr) :
    IconCursor × Option SvgError :=
  let pu := fun (v : String) (p : PercentageReference) => c.parseUnit R v p
  let r := foldAttrs (fun (s : ℚ × ℚ × ℚ × ℚ) n v =>
    let set := fun (p : PercentageReference) (upd : ℚ → ℚ × ℚ × ℚ × ℚ) =>
      match pu v p with
      | some q => (upd q, (none : Option SvgError))
      | none => (s, some SvgError.invalidNumber)
    match n with
    | "cx" => set PercentageReference.widthPercentage (fun q => (q, s.2))
    | "cy" => set PercentageReference.heightPercentage (fun q => (s.1, q, s.2.2))
    | "r" => set PercentageReference.diagPercentage
        (fun q => (s.1, s.2.1, q, q))
    | "rx" => set PercentageReference.widthPercentage
        (fun q => (s.1, s.2.1, q, s.2.2.2))
    | "ry" => set PercentageReference.heightPercentage
        (fun q => (s.1, s.2.1, s.2.2.1, q))
    | _ => (s, none)) attrs (0, 0, 0, 0)
  match r with
  | ((cx, cy, rx, ry), none) =>
    if rx = 0 ∨ ry = 0 then (c, none)
    else
      let p := ellipseAt R c.path (cx + c.curX) (cy + c.curY) rx ry
      ({ c with path := p }, none)
  | (_, some e) => (c, some e)

/-- `lineF` (svgicon/svg_elements.go): Move + Line. -/
def lineF (R : RealOps) (c : IconCursor) (attrs : List Attr) :
    IconCursor × Option SvgError :=
  let pu := fun (v : String) (p : PercentageReference) => c.parseUnit R v p
  let r := foldAttrs (fun (s : ℚ × ℚ × ℚ × ℚ) n v =>
    let set := fun (p : PercentageReference) (upd : ℚ → ℚ × ℚ × ℚ × ℚ) =>
      match pu v p with
      | some q => (upd q, (none : Option SvgError))
      | none => (s, some SvgError.invalidNumber)
    match n with
    | "x1" => set PercentageReference.widthPercentage (fun q => (q, s.2))
    | "x2" => set PercentageReference.widthPercentage (fun q => (s.1, q, s.2.2))
    | "y1" => set PercentageReference.heightPercentage
        (fun q => (s.1, s.2.1, q, s.2.2.2))
    | "y2" => set PercentageReference.heightPercentage
        (fun q => (s.1, s.2.1, s.2.2.1, q))
    | _ => (s, none)) attrs (0, 0, 0, 0)
  match r with
  | ((x1, x2, y1, y2), none) =>
    let p := (c.path.start (toFixedP (x1 + c.curX) (y1 + c.curY))).line
      (toFixedP (x2 + c.curX) (y2 + c.curY))
    ({ c with path := p }, none)
  | (_, some e) => (c, some e)

/-- The emission loop of `polylineF`: `Start` at the first point, `Line` at
the following pairs (`for i := 2; i < len(points)-1; i += 2`). -/
def polyEmit (c : IconCursor) : IconCursor :=
  if c.points.length > 4 then
    let p := c.path.start (toFixedP (c.points.getD 0 0 + c.curX)
      (c.points.getD 1 0 + c.curY))
    let p := (List.range (c.points.length / 2)).foldl (fun p k =>
      if 1 ≤ k ∧ 2 * k < c.points.length - 1 then
        p.line (toFixedP (c.points.getD (2 * k) 0 + c.curX)
          (c.points.getD (2 * k + 1) 0 + c.curY))
      else p) p
    { c with path := p }
  else c

/-- `polylineF` (svgicon/svg_elements.go): read the `points` buffer, error
on an odd coordinate count, then emit when more than 4 coordinates. -/
def polylineF (c : IconCursor) (attrs : List Attr) :
    IconCursor × Option SvgError :=
  let r := foldAttrs (fun (c : IconCursor) n v =>
    match n with
    | "points" =>
      let g := c.getPoints v
      if g.1.points.length % 2 ≠ 0 then (g.1, some SvgError.oddPolygonPoints)
      else (g.1, g.2)
    | _ => (c, none)) attrs c
  match r with
  | (c, none) => (polyEmit c, none)
  | (c, some e) => (c, some e)

/-- `polygonF` (svgicon/svg_elements.go): `polylineF`, then a Close when
more than 4 coordinates — note the Close is appended even when `polylineF`
returned an error. -/
def polygonF (c : IconCursor) (attrs : List Attr) :
    IconCursor × Option SvgError :=
  let r := polylineF c attrs
  let c := r.1
  let c := if c.points.length > 4 then { c with path := c.path.stop true } else c
  (c, r.2)

/-- `pathF` (svgicon/svg_elements.go): compile the `d` attribute. -/
def pathF (c : IconCursor) (attrs : List Attr) : IconCursor × Option SvgError :=
  foldAttrs (fun (c : IconCursor) n v =>
    match n with
    | "d" => c.compilePath v
    | _ => (c, none)) attrs c

def descF (c : IconCursor) (_attrs : List Attr) : IconCursor × Option SvgError :=
  let icon := { c.icon with descriptions := List.append c.icon.descriptions [""] }
  ({ c with inDescText := true, icon := icon }, none)

def titleF (c : IconCursor) (_attrs : List Attr) : IconCursor × Option SvgError :=
  let icon := { c.icon with titles := List.append c.icon.titles [""] }
  ({ c with inTitleText := true, icon := icon }, none)

def defsF (c : IconCursor) (_attrs : List Attr) : IconCursor × Option SvgError :=
  ({ c with inDefs := true }, none)

/-- `linearGradientF` (svgicon/svg_elements.go): note the `len(id) >= 0`
guard — it is always true, so any id (the empty string included) stores the
gradient and the `errZeroLengthID` branch is dead. -/
def linearGradientF (R : RealOps) (c : IconCursor) (attrs : List Attr) :
    IconCursor × Option SvgError :=
  let g0 : Gradient :=
    { direction := GradDirection.linear 0 0 1 0, stops := []
      bounds := c.icon.viewBox, matrix := Identity
      spread := SpreadMethod.padSpread, units := GradientUnits.objectBoundingBox }
  let c := { c with inGrad := true, grad := some g0, gradID := none }
  let r := foldAttrs (fun (s : IconCursor × ℚ × ℚ × ℚ × ℚ) n v =>
    let c := s.1
    let setDir := fun (upd : ℚ → ℚ × ℚ × ℚ × ℚ) =>
      match readFraction v with
      | some q => ((c, upd q), (none : Option SvgError))
      | none => (s, some SvgError.invalidNumber)
    match n with
    | "id" =>
      if (0 : ℕ) ≤ sLength v then
        let icon := { c.icon with grads := assocSet c.icon.grads v (c.grad.getD g0) }
        (({ c with gradID := some v, icon := icon }, s.2), none)
      else (s, some SvgError.zeroLengthID)
    | "x1" => setDir (fun q => (q, s.2.2.1, s.2.2.2.1, s.2.2.2.2))
    | "y1" => setDir (fun q => (s.2.1, q, s.2.2.2.1, s.2.2.2.2))
    | "x2" => setDir (fun q => (s.2.1, s.2.2.1, q, s.2.2.2.2))
    | "y2" => setDir (fun q => (s.2.1, s.2.2.1, s.2.2.2.1, q))
    | _ =>
      match readGradAttr R c n v with
      | (c', none) => ((c', s.2), none)
      | (c', some e) => ((c', s.2), some e)) attrs
    (c, 0, 0, 1, 0)
  match r with
  | ((c, x1, y1, x2, y2), none) =>
    (c.setGrad { (c.grad.getD g0) with
      direction := GradDirection.linear x1 y1 x2 y2 }, none)
  | ((c, _, _, _, _), some e) => (c, some e)

/-- A zero `Gradient` (only used as an unreachable `Option.getD` fallback
where the Go code dereferences the always-set current gradient pointer). -/
def gradZero : Gradient :=
  { direction := GradDirection.linear 0 0 1 0, stops := []
    bounds := ⟨0, 0, 0, 0⟩, matrix := Identity
    spread := SpreadMethod.padSpread, units := GradientUnits.objectBoundingBox }

/-- One attribute of `radialGradientF`: the state is the cursor, the six
direction components and the `setFx`/`setFy` flags. -/
def radialStep (R : RealOps) (s : IconCursor × (List ℚ) × Bool × Bool)
    (n v : String) : (IconCursor × (List ℚ) × Bool × Bool) × Option SvgError :=
  let c := s.1
  let dir := s.2.1
  let setFx := s.2.2.1
  let setFy := s.2.2.2
  let setDir := fun (i : ℕ) (fx fy : Bool) =>
    match readFraction v with
    | some q => ((c, dir.set i q, fx, fy), (none : Option SvgError))
    | none => (s, some SvgError.invalidNumber)
  if n = "id" then
    if (0 : ℕ) ≤ sLength v then
      let icon := { c.icon with grads := assocSet c.icon.grads v (c.grad.getD gradZero) }
      (({ c with gradID := some v, icon := icon }, dir, setFx, setFy), none)
    else (s, some SvgError.zeroLengthID)
  else if n = "cx" then setDir 0 setFx setFy
  else if n = "cy" then setDir 1 setFx setFy
  else if n = "fx" then setDir 2 true setFy
  else if n = "fy" then setDir 3 setFx true
  else if n = "r" then setDir 4 setFx setFy
  else if n = "fr" then setDir 5 setFx setFy
  else
    match readGradAttr R c n v with
    | (c', none) => ((c', dir, setFx, setFy), none)
    | (c', some e) => ((c', dir, setFx, setFy), some e)

/-- `radialGradientF` (svgicon/svg_elements.go): same structure, with
`fx`/`fy` defaulting to `cx`/`cy` when they were not given; the direction
is written back to the stored gradient at the end. -/
def radialGradientF (R : RealOps) (c : IconCursor) (attrs : List Attr) :
    IconCursor × Option SvgError :=
  let g0 : Gradient :=
    { direction := GradDirection.radial (1/2) (1/2) (1/2) (1/2) (1/2) (1/2)
      stops := [], bounds := c.icon.viewBox, matrix := Identity
      spread := SpreadMethod.padSpread, units := GradientUnits.objectBoundingBox }
  let c := { c with inGrad := true, grad := some g0, gradID := none }
  let r := foldAttrs (radialStep R) attrs
    (c, [1/2, 1/2, 1/2, 1/2, 1/2, 1/2], false, false)
  match r with
  | ((c, dir, setFx, setFy), none) =>
    let dir := if ¬setFx then dir.set 2 (dir.getD 0 0) else dir
    let dir := if ¬setFy then dir.set 3 (dir.getD 1 0) else dir
    (c.setGrad { (c.grad.getD g0) with
      direction := GradDirection.radial (dir.getD 0 0) (dir.getD 1 0)
        (dir.getD 2 0) (dir.getD 3 0) (dir.getD 4 0) (dir.getD 5 0) }, none)
  | ((c, _, _, _), some e) => (c, some e)

/-- `stopF` (svgicon/svg_elements.go): append a gradient stop to the current
gradient (ignored outside a gradient element). -/
def stopF (c : IconCursor) (attrs : List Attr) : IconCursor × Option SvgError :=
  if c.inGrad then
    let r := foldAttrs (fun (s : GradStop) n v =>
      match n with
      | "offset" =>
        match readFraction v with
        | some q => ({ s with offset := q }, none)
        | none => (s, some SvgError.invalidNumber)
      | "stop-color" =>
        match parseSVGColor v with
        | Except.ok oc => ({ s with stopColor := oc }, none)
        | Except.error e => (s, some e)
      | "stop-opacity" =>
        match parseBasicFloat v with
        | some q => ({ s with opacity := q }, none)
        | none => (s, some SvgError.invalidNumber)
      | _ => (s, none)) attrs { stopColor := none, offset := 0, opacity := 1 }
    match r with
    | (stop, none) =>
      match c.grad with
      | some g => (c.setGrad { g with stops := List.append g.stops [stop] }, none)
      | none => (c, none)
    | (_, some e) => (c, some e)
  else (c, none)

/-- The element dispatch table `drawFuncs` (membership only; dispatch is
`dispatchTag`). -/
def isDrawFunc (tag : String) : Bool :=
  tag = "svg" ∨ tag = "g" ∨ tag = "line" ∨ tag = "stop" ∨ tag = "rect" ∨
  tag = "circle" ∨ tag = "ellipse" ∨ tag = "polyline" ∨ tag = "polygon" ∨
  tag = "path" ∨ tag = "desc" ∨ tag = "defs" ∨ tag = "title" ∨
  tag = "linearGradient" ∨ tag = "radialGradient" ∨ tag = "use"

/-- The defs replay loop of `useF`: `endg` pops a style frame, any other
stored definition is replayed as push-style / dispatch / pop-style (the
style is not popped for `<g>`, which relies on the `endg` sentinel). An
unknown tag stops the replay (an error only in strict mode). -/
def useLoop (R : RealOps)
    (df : String → List Attr → IconCursor → IconCursor × Option SvgError) :
    List Definition → IconCursor → IconCursor × Option SvgError
  | [], c => (c, none)
  | d :: rest, c =>
    if d.tag = "endg" then useLoop R df rest c.popStyle
    else
      match c.pushStyle R d.attrs with
      | (c, some e) => (c, some e)
      | (c, none) =>
        if ¬isDrawFunc d.tag then
          if c.errorMode = ErrorMode.strict then
            (c, some (SvgError.unknownElement d.tag))
          else (c, none)
        else
          match df d.tag d.attrs c with
          | (c, some e) => (c, some e)
          | (c, none) =>
            if d.tag ≠ "g" then useLoop R df rest c.popStyle
            else useLoop R df rest c

/-- `useF` (svgicon/svg_elements.go): set the cursor offset, replay the
referenced defs block, reset the offset on every exit path (the deferred
reset). -/
def useF (R : RealOps)
    (df : String → List Attr → IconCursor → IconCursor × Option SvgError)
    (c : IconCursor) (attrs : List Attr) : IconCursor × Option SvgError :=
  let pu := fun (v : String) (p : PercentageReference) => c.parseUnit R v p
  let r := foldAttrs (fun (s : String × ℚ × ℚ) n v =>
    match n with
    | "href" => ((v, s.2), none)
    | "x" =>
      match pu v PercentageReference.widthPercentage with
      | some q => ((s.1, q, s.2.2), none)
      | none => (s, some SvgError.invalidNumber)
    | "y" =>
      match pu v PercentageReference.heightPercentage with
      | some q => ((s.1, s.2.1, q), none)
      | none => (s, some SvgError.invalidNumber)
    | _ => (s, none)) attrs ("", 0, 0)
  match r with
  | (_, some e) => (c, some e)
  | ((href, x, y), none) =>
    let c := { c with curX := x, curY := y }
    let reset := fun (c : IconCursor) => { c with curX := 0, curY := 0 }
    if href = "" then (reset c, some SvgError.useMissingHref)
    else if ¬sStartsWith href "#" then (reset c, some SvgError.useBadHref)
    else
      match assocGet c.icon.defs (sDrop href 1) with
      | none => (reset c, some SvgError.useNotFound)
      | some defs =>
        let lr := useLoop R df defs c
        (reset lr.1, lr.2)

/-- The fuelled element dispatcher (`drawFuncs` lookup plus call); the fuel
bounds the defs-replay recursion through `<use>` (a cyclic defs table makes
the Go code recurse without bound). -/
def dispatchTag (R : RealOps) : ℕ → String → List Attr → IconCursor →
    IconCursor × Option SvgError
  | 0, _, _, c => (c, some SvgError.fuelExhausted)
  | fuel + 1, tag, attrs, c =>
    match tag with
    | "svg" => svgF c attrs
    | "g" => gF c attrs
    | "line" => lineF R c attrs
    | "stop" => stopF c attrs
    | "rect" => rectF R c attrs
    | "circle" => circleF R c attrs
    | "ellipse" => circleF R c attrs
    | "polyline" => polylineF c attrs
    | "polygon" => polygonF c attrs
    | "path" => pathF c attrs
    | "desc" => descF c attrs
    | "defs" => defsF c attrs
    | "title" => titleF c attrs
    | "linearGradient" => linearGradientF R c attrs
    | "radialGradient" => radialGradientF R c attrs
    | "use" => useF R (fun t a cc => dispatchTag R fuel t a cc) c attrs
    | other => (c, some (SvgError.unknownElement other))

/-- `readStartElement` (svgicon/parse.go): defs recording, dispatch, and the
flush of the accumulated path into the icon — the flush runs even when the
element function returned an error. -/
def readStartElement (R : RealOps) (fuel : ℕ) (tag : String)
    (attrs : List Attr) (c : IconCursor) : IconCursor × Option SvgError :=
  let skipDef := tag = "radialGradient" ∨ tag = "linearGradient" ∨ c.inGrad
  if c.inDefs ∧ ¬skipDef then
    let id := (attrs.foldl (fun acc p => if p.1 = "id" then p.2 else acc) "")
    let c :=
      if id ≠ "" ∧ c.currentDef.length > 0 then
        let defs := assocSet c.icon.defs
          ((c.currentDef.getD 0 ⟨"", "", []⟩).id) c.currentDef
        { c with icon := { c.icon with defs := defs }, currentDef := [] }
      else c
    ({ c with currentDef := List.append c.currentDef [⟨id, tag, attrs⟩] }, none)
  else if ¬isDrawFunc tag then
    if c.errorMode = ErrorMode.strict then
      (c, some (SvgError.unknownElement tag))
    else (c, none)
  else
    let r := dispatchTag R fuel tag attrs c
    let c := r.1
    let c :=
      if c.path.length > 0 then
        let paths := List.append c.icon.svgPaths [⟨c.path, c.topStyle⟩]
        { c with icon := { c.icon with svgPaths := paths }, path := [] }
      else c
    (c, r.2)

/-- An XML token of the host decoder (`xml.StartElement`, `xml.EndElement`,
`xml.CharData`); the decoder itself is outside the core. -/
inductive XmlEvent where
  | startEl (name : String) (attrs : List Attr)
  | endEl (name : String)
  | charData (s : String)
  deriving DecidableEq, Repr

def appendToLast (l : List String) (s : String) : List String :=
  match l.getLast? with
  | some last => List.append l.dropLast [last ++ s]
  | none => l

/-- The `EndElement` arm of the `ReadIconStream` loop. -/
def readEndElement (name : String) (c : IconCursor) : IconCursor :=
  let c := c.popStyle
  match name with
  | "g" =>
    if c.inDefs then
      { c with currentDef := List.append c.currentDef [⟨"", "endg", []⟩] }
    else c
  | "title" => { c with inTitleText := false }
  | "desc" => { c with inDescText := false }
  | "defs" =>
    let c :=
      if c.currentDef.length > 0 then
        let defs := assocSet c.icon.defs
          ((c.currentDef.getD 0 ⟨"", "", []⟩).id) c.currentDef
        { c with icon := { c.icon with defs := defs }, currentDef := [] }
      else c
    { c with inDefs := false }
  | "radialGradient" => { c with inGrad := false }
  | "linearGradient" => { c with inGrad := false }
  | _ => c

/-- The event loop of `ReadIconStream` (svgicon/parse.go): push style and
dispatch on start elements (returning the partial icon alongside any
error), pop and bookkeep on end elements, collect character data. -/
def readIconStreamGo (R : RealOps) (fuel : ℕ) :
    List XmlEvent → IconCursor → Bool → Option SvgIcon × Option SvgError
  | [], c, seenTag =>
    if ¬seenTag then (none, some SvgError.invalidSvg) else (some c.icon, none)
  | ev :: rest, c, seenTag =>
    match ev with
    | XmlEvent.startEl name attrs =>
      match c.pushStyle R attrs with
      | (c, some e) => (some c.icon, some e)
      | (c, none) =>
        match readStartElement R fuel name attrs c with
        | (c, some e) => (some c.icon, some e)
        | (c, none) => readIconStreamGo R fuel rest c true
    | XmlEvent.endEl name => readIconStreamGo R fuel rest (readEndElement name c) seenTag
    | XmlEvent.charData s =>
      let c := if c.inTitleText then
          { c with icon := { c.icon with titles := appendToLast c.icon.titles s } }
        else c
      let c := if c.inDescText then
          let ds := appendToLast c.icon.descriptions s
          { c with icon := { c.icon with descriptions := ds } }
        else c
      readIconStreamGo R fuel rest c seenTag

/-- `ReadIconStream` (svgicon/parse.go) over a decoded event list. -/
def ReadIconStream (R : RealOps) (fuel : ℕ) (events : List XmlEvent)
    (mode : ErrorMode) : Option SvgIcon × Option SvgError :=
  readIconStreamGo R fuel events (initialCursor mode) false

def PathOp.isMove : PathOp → Bool
  | PathOp.moveTo _ => true
  | _ => false

def PathOp.isClose : PathOp → Bool
  | PathOp.close => true
  | _ => false

/-- `StrokeOptions` (driver-facing stroke parameters). -/
structure StrokeOptions where
  lineWidth : ℤ
  join : JoinOptions
  dash : DashOptions
  deriving DecidableEq, Repr

/-- One driver / drawer invocation, covering both generations of the
drawing interface. -/
inductive DrawCall where
  | clear
  | setWinding (nonZero : Bool)
  | setColor (paint : Option Pattern) (opacity : ℚ)
  | setStrokeOptions (opts : StrokeOptions)
  | start (a : P26)
  | line (b : P26)
  | quadBezier (b c : P26)
  | cubeBezier (b c d : P26)
  | stop (closeLoop : Bool)
  | draw
  deriving DecidableEq, Repr

/-- `filler` (svgicon/drawfill.go): the fill-replay state — `first` is the
start of the current subpath, `a` the current point. The Go zero value has
both at the origin. -/
structure FillerState where
  first : P26
  a : P26
  deriving DecidableEq, Repr

/-- `filler.line` (drawfill.go). -/
def fillerLine (f : FillerState) (b : P26) : FillerState × List DrawCall :=
  ({ f with a := b }, [DrawCall.line b])

/-- `filler.stop` (drawfill.go): close the subpath with a line back to the
first point when needed. -/
def fillerStop (f : FillerState) : FillerState × List DrawCall :=
  if f.first ≠ f.a then fillerLine f f.first else (f, [])

/-- The `fill` methods of the five operations (drawfill.go). -/
def fillOp (M : Matrix2D) (f : FillerState) : PathOp →
    FillerState × List DrawCall
  | PathOp.moveTo p =>
    let r := fillerStop f
    let a := M.trPoint p
    ({ first := a, a := a }, List.append r.2 [DrawCall.start a])
  | PathOp.lineTo p => fillerLine f (M.trPoint p)
  | PathOp.quadTo b c =>
    let tb := M.trPoint b
    let tc := M.trPoint c
    ({ f with a := tc }, [DrawCall.quadBezier tb tc])
  | PathOp.cubicTo b c d =>
    let tb := M.trPoint b
    let tc := M.trPoint c
    let td := M.trPoint d
    ({ f with a := td }, [DrawCall.cubeBezier tb tc td])
  | PathOp.close => fillerStop f

def fillOps (M : Matrix2D) : List PathOp → FillerState →
    FillerState × List DrawCall
  | [], f => (f, [])
  | op :: rest, f =>
    let r := fillOp M f op
    let r2 := fillOps M rest r.1
    (r2.1, List.append r.2 r2.2)

/-- `SvgPath.drawFill` (svgicon/drawfill.go), as written: the guard
`if svgp.Style.FillerColor != nil { return }` returns early for every
non-nil fill paint, despite the comment `nil color disable filling`. The
returned list is the sequence of driver calls issued. -/
def drawFill (svgp : SvgPath) (opacity : ℚ) : List DrawCall :=
  if svgp.style.fillerColor ≠ none then []
  else
    let f : FillerState := ⟨⟨0, 0⟩, ⟨0, 0⟩⟩
    let body := fillOps svgp.style.transform svgp.path f
    let final := fillerStop body.1
    List.append
      (List.append [DrawCall.clear, DrawCall.setWinding svgp.style.useNonZeroWinding]
        (List.append body.2 final.2))
      [DrawCall.setColor svgp.style.fillerColor (svgp.style.fillOpacity * opacity),
       DrawCall.draw, DrawCall.setWinding true]

/-- `Operation.drawTo` (svgicon path.go): how each path op is forwarded to
a drawer, applying the transform to its points; a MoveTo first closes any
open subpath with `Stop(false)`. -/
def drawToOp (M : Matrix2D) : PathOp → List DrawCall
  | PathOp.moveTo p => [DrawCall.stop false, DrawCall.start (M.trPoint p)]
  | PathOp.lineTo p => [DrawCall.line (M.trPoint p)]
  | PathOp.quadTo b c => [DrawCall.quadBezier (M.trPoint b) (M.trPoint c)]
  | PathOp.cubicTo b c d =>
    [DrawCall.cubeBezier (M.trPoint b) (M.trPoint c) (M.trPoint d)]
  | PathOp.close => [DrawCall.stop true]

/-- The op-forwarding loop of `drawTransformed`:
`for _, op := range svgp.Path { op.drawTo(handle, transform) }`. -/
def drawToPath (M : Matrix2D) (ops : List PathOp) : List DrawCall :=
  ops.flatMap (drawToOp M)

/-- The stroke options built by `drawTransformed` (readme drawicon variant):
nil caps and gaps fall back to the default style, the lead cap falls back
to the trailing cap. -/
def strokeOptsOf (style : PathStyle) : StrokeOptions :=
  let lineGap := if style.join.lineGap = GapMode.nilGap then
      DefaultStyle.join.lineGap else style.join.lineGap
  let lineCap := if style.join.trailLineCap = CapMode.nilCap then
      DefaultStyle.join.trailLineCap else style.join.trailLineCap
  let leadLineCap := if style.join.leadLineCap ≠ CapMode.nilCap then
      style.join.leadLineCap else lineCap
  { lineWidth := fToFixed style.lineWidth
    join :=
      { miterLimit := style.join.miterLimit
        lineJoin := style.join.lineJoin
        leadLineCap := leadLineCap
        trailLineCap := lineCap
        lineGap := lineGap }
    dash := style.dash }

/-- The fill pass of `drawTransformed` (SetupDrawers variant): clear, set
winding, forward the ops, Stop(false), set the paint with effective
opacity, draw, restore the default winding. `M` is the already world-
multiplied transform. -/
def fillPassTrace (svgp : SvgPath) (opacity : ℚ) (M : Matrix2D) :
    List DrawCall :=
  List.append
    (List.append [DrawCall.clear, DrawCall.setWinding svgp.style.useNonZeroWinding]
      (drawToPath M svgp.path))
    [DrawCall.stop false,
     DrawCall.setColor svgp.style.fillerColor (svgp.style.fillOpacity * opacity),
     DrawCall.draw, DrawCall.setWinding true]

/-- The stroke pass of `drawTransformed` (SetupDrawers variant): clear, set
the stroke options, forward the ops, Stop(false), set the paint, draw. -/
def strokePassTrace (svgp : SvgPath) (opacity : ℚ) (M : Matrix2D) :
    List DrawCall :=
  List.append
    (List.append [DrawCall.clear, DrawCall.setStrokeOptions (strokeOptsOf svgp.style)]
      (drawToPath M svgp.path))
    [DrawCall.stop false,
     DrawCall.setColor svgp.style.linerColor (svgp.style.lineOpacity * opacity),
     DrawCall.draw]

/-- Which sub-handle of the driver received a call. -/
inductive Handle where
  | fillerH
  | strokerH
  deriving DecidableEq, Repr

/-- `SvgPath.drawTransformed` (readme, SetupDrawers variant): swap in the
world-multiplied transform, ask the driver for the sub-handles
(`SetupDrawers(FillerColor != nil, LinerColor != nil)`; per the Driver
contract a handle is present exactly when its flag is true), then run the
fill pass followed by the stroke pass. The result is the full tagged call
trace. -/
def drawTransformed (svgp : SvgPath) (opacity : ℚ) (t : Matrix2D) :
    List (Handle × DrawCall) :=
  let M := t.Mult svgp.style.transform
  let willFill := svgp.style.fillerColor ≠ none
  let willStroke := svgp.style.linerColor ≠ none
  let fillPart := if willFill then fillPassTrace svgp opacity M else []
  let strokePart := if willStroke then strokePassTrace svgp opacity M else []
  List.append (fillPart.map (fun c => (Handle.fillerH, c)))
    (strokePart.map (fun c => (Handle.strokerH, c)))

/-- `SvgIcon.Draw`: replay every SvgPath in document order. -/
def SvgIcon.Draw (s : SvgIcon) (opacity : ℚ) : List (Handle × DrawCall) :=
  s.svgPaths.flatMap (fun svgp => drawTransformed svgp opacity s.transform)

/-- A path-geometry call (Start, Line, QuadBezier, CubeBezier, Stop). -/
def DrawCall.isPathOpCall : DrawCall → Bool
  | DrawCall.start _ => true
  | DrawCall.line _ => true
  | DrawCall.quadBezier _ _ => true
  | DrawCall.cubeBezier _ _ _ => true
  | DrawCall.stop _ => true
  | _ => false

/-- `SvgIcon.SetTarget` (svgpath/parse.go and readme): set the world
transform from the viewBox and the target rectangle; nothing else. -/
def SvgIcon.SetTarget (s : SvgIcon) (x y w h : ℚ) : SvgIcon :=
  let scaleW := w / s.viewBox.w
  let scaleH := h / s.viewBox.h
  { s with transform := (Identity.Translate (x - s.viewBox.x)
      (y - s.viewBox.y)).Scale scaleW scaleH }

/-! ### svgpath gradient URL resolution with explicit slice aliasing

The svgpath package stores `*Gradient` pointers in the icon's `Grads` map;
a gradient's `Stops` field is a Go slice (a pointer to a shared backing
array). To make the claim "the stored gradient's stops are not modified"
meaningful, the stop slices live in an explicit heap (`StopHeap`) and a
stored gradient holds a reference (`stopsRef`) into it. `localizeGrad` on
values above is the same algorithm at value level for the svgicon paints. -/

/-- The heap of stop slices (Go backing arrays). -/
abbrev StopHeap := List (List GradStop)

def hGet (h : StopHeap) (r : ℕ) : List GradStop := h.getD r []

/-- A svgpath `Gradient` as stored in the `Grads` table: its `Stops` field
is a reference into the stop heap; the other fields are plain values. -/
structure HGradient where
  stopsRef : ℕ
  direction : GradDirection
  bounds : SvgBounds
  matrix : Matrix2D
  spread : SpreadMethod
  units : GradientUnits
  deriving DecidableEq, Repr

/-- A svgpath paint context (`interface{}`): a plain `color.NRGBA`, a
`Gradient` value (with materialised stops), or nil. -/
inductive SPPaint where
  | col (c : RGBA)
  | gradp (stops : List GradStop)
  | nilp
  deriving DecidableEq, Repr

/-- `getColor` (svgpath/parse.go): the first non-nil stop color of a
gradient context, a plain color itself, black for anything else. -/
def getColorSP : SPPaint → RGBA
  | SPPaint.gradp stops =>
    match (stops.filter (fun s => s.stopColor ≠ none)).head? with
    | some s => s.stopColor.getD blackColor
    | none => blackColor
  | SPPaint.col c => c
  | SPPaint.nilp => blackColor

/-- `localizeGradIfStopClrNil` (svgpath/parse.go) with the slice heap made
explicit: `grad := *g` copies the struct (sharing the stops reference);
when some stop color is nil the stop slice is copied into a fresh cell
(`append([]GradStop{}, grad.Stops...)`), the copy's nil colors are filled
with `getColor(defaultColor)`, and the returned gradient references the
copy. Returns the new heap and the localized gradient. -/
def localizeGradHeap (h : StopHeap) (g : HGradient) (defaultColor : SPPaint) :
    StopHeap × HGradient :=
  let stops := hGet h g.stopsRef
  if stops.any (fun s => s.stopColor = none) then
    let newRef := h.length
    let clr := getColorSP defaultColor
    let h := List.append h [stops.map (substStop clr)]
    (h, { g with stopsRef := newRef })
  else (h, g)

/-- `ReadGradURL` (svgpath/parse.go): recognise `url(#id)`, look the id up
in the `Grads` table and localize a copy; `none` when the value is not a
resolvable gradient URL (the heap is then unchanged). -/
def ReadGradURLHeap (h : StopHeap) (gradsTab : List (String × HGradient))
    (v : String) (defaultColor : SPPaint) : StopHeap × Option HGradient :=
  if sStartsWith v "url(" ∧ sEndsWith v ")" then
    let urlStr := sTrim (sDropRight (sDrop v 4) 1)
    if sStartsWith urlStr "#" then
      match assocGet gradsTab (sDrop urlStr 1) with
      | some g =>
        let r := localizeGradHeap h g defaultColor
        (r.1, some r.2)
      | none => (h, none)
    else (h, none)
  else (h, none)

/-! ## Properties and supporting lemmas -/

/-- The first clause of the path invariant, as the claim states it: a Move
occurs before the first non-Move operation. -/
def moveBeforeNonMove (p : SvgOpsPath) : Prop :=
  ∀ i, (h : i < p.length) → (p.get ⟨i, h⟩).isMove = false →
    ∃ j, ∃ (hj : j < p.length), j < i ∧ (p.get ⟨j, hj⟩).isMove = true

/-- The second clause: no Close occurs before the first Move. -/
def noCloseBeforeMove (p : SvgOpsPath) : Prop :=
  ∀ i, (h : i < p.length) → (p.get ⟨i, h⟩).isClose = true →
    ∃ j, ∃ (hj : j < p.length), j < i ∧ (p.get ⟨j, hj⟩).isMove = true

/-- The sequence of operations the claim about polylines predicts: Move to
the first point, then a Line to each subsequent point (index form; pair k
is coordinates 2k and 2k+1). -/
def polyOpsSpec (pts : List ℚ) : SvgOpsPath :=
  PathOp.moveTo (toFixedP (pts.getD 0 0) (pts.getD 1 0)) ::
    ((List.range (pts.length / 2)).drop 1).map (fun k =>
      PathOp.lineTo (toFixedP (pts.getD (2 * k) 0) (pts.getD (2 * k + 1) 0)))

theorem foldAttrs_append {σ : Type}
    (step : σ → String → String → σ × Option SvgError)
    (a b : List Attr) (s : σ) :
    foldAttrs step (List.append a b) s =
      match foldAttrs step a s with
      | (s', none) => foldAttrs step b s'
      | (s', some e) => (s', some e) := by
  induction a generalizing s with
  | nil => simp [foldAttrs]
  | cons hd tl ih =>
    obtain ⟨n, v⟩ := hd
    simp only [List.append_eq, List.cons_append, foldAttrs]
    rcases h : step s n v with ⟨s', e⟩
    cases e with
    | none => simpa [foldAttrs, h] using ih s'
    | some err => simp [foldAttrs, h]

theorem lineFoldEq (m : ℕ) (cond : ℕ → Prop) [DecidablePred cond]
    (f : ℕ → P26) (p : SvgOpsPath) :
    (List.range m).foldl (fun p k => if cond k then p.line (f k) else p) p =
      List.append p (((List.range m).filter (fun k => decide (cond k))).map
        (fun k => PathOp.lineTo (f k))) := by
  induction m with
  | zero => simp [List.range_zero]
  | succ n ih =>
    rw [List.range_succ, List.foldl_append, List.filter_append, List.map_append,
      ih]
    by_cases h : cond n <;>
      simp [h, SvgOpsPath.line, List.append_assoc]

theorem polyFilterEq (n : ℕ) (hn2 : n % 2 = 0) (hn4 : n > 4) :
    ((List.range (n / 2)).filter
        (fun k => decide (1 ≤ k ∧ 2 * k < n - 1))) =
      (List.range (n / 2)).drop 1 := by
  have hcond : ∀ k < n / 2, (1 ≤ k ∧ 2 * k < n - 1) ↔ 1 ≤ k := by
    intro k hk
    constructor
    · exact fun h => h.1
    · intro h1
      refine ⟨h1, ?_⟩
      omega
  have : ∀ m, m ≤ n / 2 →
      ((List.range m).filter (fun k => decide (1 ≤ k ∧ 2 * k < n - 1))) =
        (List.range m).drop 1 := by
    intro m
    induction m with
    | zero => intro _; simp
    | succ mm ih =>
      intro hle
      rw [List.range_succ, List.filter_append, ih (by omega)]
      have hm : mm < n / 2 := by omega
      by_cases h1 : 1 ≤ mm
      · have : (1 ≤ mm ∧ 2 * mm < n - 1) := by
          exact (hcond mm hm).2 h1
        simp only [List.filter_cons, List.filter_nil, decide_eq_true_eq]
        rw [if_pos this]
        have hmm : mm ≠ 0 := by omega
        rw [List.drop_append_of_le_length (by simp [List.length_range]; omega)]
      · have hmm0 : mm = 0 := by omega
        subst hmm0
        simp
  exact this (n / 2) (le_refl _)

theorem polyEmitEq (c : IconCursor) (hx : c.curX = 0) (hy : c.curY = 0)
    (hn2 : c.points.length % 2 = 0) (hn4 : c.points.length > 4) :
    polyEmit c = { c with path := List.append c.path (polyOpsSpec c.points) } := by
  have hfold := lineFoldEq (c.points.length / 2)
    (fun k => 1 ≤ k ∧ 2 * k < c.points.length - 1)
    (fun k => toFixedP (c.points.getD (2 * k) 0 + c.curX)
      (c.points.getD (2 * k + 1) 0 + c.curY))
    (c.path.start (toFixedP (c.points.getD 0 0 + c.curX)
      (c.points.getD 1 0 + c.curY)))
  rw [polyFilterEq c.points.length hn2 hn4] at hfold
  simp only [polyEmit, hn4, if_true, hfold]
  simp [SvgOpsPath.start, polyOpsSpec, hx, hy, List.append_assoc]

/-! ## Claim C1 -/

/-- An SvgPath with the default style: its fill paint is plain black,
which is not a nil paint. -/
def c1FilledPath : SvgPath :=
  ⟨[PathOp.moveTo ⟨0, 0⟩, PathOp.lineTo ⟨64, 64⟩], DefaultStyle⟩

/-- The same path with the fill paint removed (`fill="none"`). -/
def c1NilFillPath : SvgPath :=
  ⟨[PathOp.moveTo ⟨0, 0⟩, PathOp.lineTo ⟨64, 64⟩],
   { DefaultStyle with fillerColor := none }⟩

/-- C1. The claim says the fill pass is issued iff `Style.FillerColor` is
not nil. The code of `drawFill` (svgicon/drawfill.go) does the opposite:
its guard `if svgp.Style.FillerColor != nil { return }` skips the whole
fill pass for every non-nil fill paint (here, the default black fill: no
driver call is issued), and issues the fill pass — through to
`SetFillColor` with a nil paint — exactly when the fill paint is nil. This
contradicts the claim and the function's own comment
`nil color disable filling` (the guard inverts the intended `== nil`),
hence a code bug, evaluated here at the failing inputs. -/
theorem claim_C1_drawFill_inverted :
    c1FilledPath.style.fillerColor ≠ none ∧
    drawFill c1FilledPath 1 = [] ∧
    c1NilFillPath.style.fillerColor = none ∧
    drawFill c1NilFillPath 1 =
      [DrawCall.clear, DrawCall.setWinding true, DrawCall.start ⟨0, 0⟩,
       DrawCall.line ⟨64, 64⟩, DrawCall.line ⟨0, 0⟩,
       DrawCall.setColor none 1, DrawCall.draw, DrawCall.setWinding true] := by
  refine ⟨by decide, by decide, by decide, by decide⟩

/-! ## Claim C2 -/

/-- The failing input for C2: a polygon whose `points` list has five
coordinates (an odd count). -/
def c2Events : List XmlEvent :=
  [XmlEvent.startEl "svg" [("viewBox", "0 0 10 10")],
   XmlEvent.startEl "polygon" [("points", "0 0 1 0 1")]]

/-- C2. The claim (spec P1) says every SvgPath stored in a parsed SvgIcon —
icons returned alongside a parse error included — has a Move before the
first non-Move op and no Close before the first Move. `polygonF`
(svgicon/svg_elements.go) violates this: when `polylineF` rejects an odd
coordinate count it emits nothing, yet `polygonF` ignores that error and
still appends a Close (`c.path.Stop(true)`), and `readStartElement`
flushes the resulting path `[Close]` into the icon before the error is
propagated. The parse below errors with the odd-count error while the
returned icon stores exactly the op list `[Close]`, which violates both
clauses of the invariant — the code contradicts the spec's clearly stated
intent (the error path was meant to emit nothing), hence a code bug. -/
theorem claim_C2_close_without_move :
    (ReadIconStream qOps 10 c2Events ErrorMode.strict).2 =
      some SvgError.oddPolygonPoints ∧
    ((ReadIconStream qOps 10 c2Events ErrorMode.strict).1.map
      (fun i => i.svgPaths.map (fun p => p.path))) = some [[PathOp.close]] ∧
    ¬ moveBeforeNonMove [PathOp.close] ∧
    ¬ noCloseBeforeMove [PathOp.close] := by
  refine ⟨by decide, by decide, ?_, ?_⟩
  · intro hinv
    obtain ⟨j, hj, hlt, _⟩ := hinv 0 (by decide) (by decide)
    exact absurd hlt (Nat.not_lt_zero j)
  · intro hinv
    obtain ⟨j, hj, hlt, _⟩ := hinv 0 (by decide) (by decide)
    exact absurd hlt (Nat.not_lt_zero j)

/-! ## Claim C3 -/

/-- The failing input for C3: a linearGradient whose id is the empty
string. -/
def c3Events : List XmlEvent :=
  [XmlEvent.startEl "svg" [],
   XmlEvent.startEl "linearGradient" [("id", "")]]

def c3RadialEvents : List XmlEvent :=
  [XmlEvent.startEl "svg" [],
   XmlEvent.startEl "radialGradient" [("id", "")]]

/-- C3. The claim says an empty gradient id fails with `InvalidGradient`
and aborts parsing. In `linearGradientF` and `radialGradientF`
(svgicon/svg_elements.go) the guard is `if len(id) >= 0`, which is always
true, so the empty id is accepted, the gradient is stored under the key
`""`, no error is returned and parsing continues: the `errZeroLengthID`
branch is dead code. A length guard that can never fail while its else
branch returns the dedicated error is a slip for `len(id) > 0`, so this is
a code bug, evaluated at the failing input (both gradient elements). -/
theorem claim_C3_empty_gradient_id_accepted :
    (ReadIconStream qOps 10 c3Events ErrorMode.strict).2 = none ∧
    ((ReadIconStream qOps 10 c3Events ErrorMode.strict).1.map
      (fun i => i.grads.map (fun p => p.1))) = some [""] ∧
    (ReadIconStream qOps 10 c3RadialEvents ErrorMode.strict).2 = none ∧
    ((ReadIconStream qOps 10 c3RadialEvents ErrorMode.strict).1.map
      (fun i => i.grads.map (fun p => p.1))) = some [""] := by
  refine ⟨by decide, by decide, by decide, by decide⟩

/-! ## Claim C7 -/

/-- C7. When a style frame is pushed, `opacity` multiplies both the
inherited fill and line opacities, `fill-opacity` multiplies only the fill
opacity, and `stroke-opacity` multiplies only the line opacity
(`readStyleAttr`, svgicon/parse.go); the rest of the style frame and the
cursor are untouched by these branches. -/
theorem claim_C7_opacity_attrs (R : RealOps) (c : IconCursor) (s : PathStyle)
    (v : String) (op : ℚ) (hv : parseFloatQ v = some op) :
    readStyleAttr R c s "opacity" v =
      (c, { s with fillOpacity := s.fillOpacity * op
                   lineOpacity := s.lineOpacity * op }, none) ∧
    readStyleAttr R c s "fill-opacity" v =
      (c, { s with fillOpacity := s.fillOpacity * op }, none) ∧
    readStyleAttr R c s "stroke-opacity" v =
      (c, { s with lineOpacity := s.lineOpacity * op }, none) := by
  refine ⟨?_, ?_, ?_⟩ <;> simp [readStyleAttr, hv]

/-- Witness for C7 at `v = "0.5"` on the default style. -/
theorem claim_C7_witness :
    parseFloatQ "0.5" = some (1 / 2) ∧
    readStyleAttr qOps (initialCursor ErrorMode.strict) DefaultStyle
      "opacity" "0.5" =
      (initialCursor ErrorMode.strict,
       { DefaultStyle with fillOpacity := DefaultStyle.fillOpacity * (1 / 2)
                           lineOpacity := DefaultStyle.lineOpacity * (1 / 2) },
       none) := by
  refine ⟨by decide, ?_⟩
  exact (claim_C7_opacity_attrs qOps (initialCursor ErrorMode.strict)
    DefaultStyle "0.5" (1 / 2) (by decide)).1

/-! ## Claim C9 -/

/-- C9. `SetTarget(x, y, w, h)` (svgpath/parse.go) sets the icon's world
transform to `Identity · translate(x - vb.x, y - vb.y) ·
scale(w / vb.w, h / vb.h)` — equivalently the affine matrix
(w/vb.w, 0, 0, h/vb.h, x - vb.x, y - vb.y) — and changes no other field of
the icon. The matrix operations are modelled from the spec (§3), as the
matrix code is not under src/. -/
theorem claim_C9_setTarget (s : SvgIcon) (x y w h : ℚ) :
    (s.SetTarget x y w h).transform =
      (Identity.Mult (translationMatrix (x - s.viewBox.x) (y - s.viewBox.y))).Mult
        (scaleMatrix (w / s.viewBox.w) (h / s.viewBox.h)) ∧
    (s.SetTarget x y w h).transform =
      ⟨w / s.viewBox.w, 0, 0, h / s.viewBox.h, x - s.viewBox.x, y - s.viewBox.y⟩ ∧
    (∀ px py : ℚ, (s.SetTarget x y w h).transform.apply (px, py) =
      ((x - s.viewBox.x) + px * (w / s.viewBox.w),
       (y - s.viewBox.y) + py * (h / s.viewBox.h))) ∧
    (s.SetTarget x y w h).viewBox = s.viewBox ∧
    (s.SetTarget x y w h).titles = s.titles ∧
    (s.SetTarget x y w h).descriptions = s.descriptions ∧
    (s.SetTarget x y w h).svgPaths = s.svgPaths ∧
    (s.SetTarget x y w h).grads = s.grads ∧
    (s.SetTarget x y w h).defs = s.defs := by
  refine ⟨rfl, ?_, ?_, rfl, rfl, rfl, rfl, rfl, rfl⟩
  · simp [SvgIcon.SetTarget, Matrix2D.Translate, Matrix2D.Scale, Matrix2D.Mult,
      Identity, translationMatrix, scaleMatrix]
  · intro px py
    simp [SvgIcon.SetTarget, Matrix2D.Translate, Matrix2D.Scale, Matrix2D.Mult,
      Identity, translationMatrix, scaleMatrix, Matrix2D.apply]
    constructor <;> ring_nf

/-! ## Claim C4 -/

/-- C4. For a path whose style enables both passes, `drawTransformed`
(readme, SetupDrawers variant) issues the complete fill pass to the Filler
before the stroke pass to the Stroker, and the path-geometry calls (Start,
Line, QuadBezier, CubeBezier, Stop) it forwards to the Filler are
identical, in order, to those forwarded to the Stroker (both loops forward
`op.drawTo` over the same path with the same world-multiplied transform,
and both passes terminate with `Stop(false)`). -/
theorem claim_C4_fill_before_stroke (svgp : SvgPath) (opacity : ℚ)
    (t : Matrix2D) (hf : svgp.style.fillerColor ≠ none)
    (hs : svgp.style.linerColor ≠ none) :
    drawTransformed svgp opacity t =
      List.append
        ((fillPassTrace svgp opacity (t.Mult svgp.style.transform)).map
          (fun c => (Handle.fillerH, c)))
        ((strokePassTrace svgp opacity (t.Mult svgp.style.transform)).map
          (fun c => (Handle.strokerH, c))) ∧
    (fillPassTrace svgp opacity (t.Mult svgp.style.transform)).filter
        DrawCall.isPathOpCall =
      (strokePassTrace svgp opacity (t.Mult svgp.style.transform)).filter
        DrawCall.isPathOpCall := by
  constructor
  · simp [drawTransformed, hf, hs]
  · simp [fillPassTrace, strokePassTrace, List.filter_append,
      DrawCall.isPathOpCall]

/-- A path with both a fill paint (default black) and a stroke paint. -/
def c4Path : SvgPath :=
  ⟨[PathOp.moveTo ⟨0, 0⟩, PathOp.lineTo ⟨64, 0⟩, PathOp.close],
   { DefaultStyle with linerColor := some (Pattern.plain blackColor) }⟩

/-- Witness for C4 at a concrete two-pass path. -/
theorem claim_C4_witness :
    c4Path.style.fillerColor ≠ none ∧ c4Path.style.linerColor ≠ none ∧
    (drawTransformed c4Path 1 Identity =
      List.append
        ((fillPassTrace c4Path 1 (Identity.Mult c4Path.style.transform)).map
          (fun c => (Handle.fillerH, c)))
        ((strokePassTrace c4Path 1 (Identity.Mult c4Path.style.transform)).map
          (fun c => (Handle.strokerH, c))) ∧
     (fillPassTrace c4Path 1 (Identity.Mult c4Path.style.transform)).filter
         DrawCall.isPathOpCall =
       (strokePassTrace c4Path 1 (Identity.Mult c4Path.style.transform)).filter
         DrawCall.isPathOpCall) :=
  ⟨by decide, by decide,
   claim_C4_fill_before_stroke c4Path 1 Identity (by decide) (by decide)⟩

/-! ## Claim C5 -/

/-- C5 counterexample. The claim says a polyline whose `points` attribute
holds an even number of coordinates forming at least two points emits a
Move and Lines. With exactly two points (`"0 0 1 1"`, four coordinates,
even) the reducer emits nothing at all — `polylineF` requires
`len(points) > 4` — and reports no error, while the claim predicts the ops
`polyOpsSpec [0,0,1,1] = [Move (0,0), Line (64,64)]`. -/
theorem claim_C5_counterexample :
    getPointsRaw "0 0 1 1" = ([0, 0, 1, 1], none) ∧
    ([0, 0, 1, 1] : List ℚ).length % 2 = 0 ∧
    polylineF (initialCursor ErrorMode.strict) [("points", "0 0 1 1")] =
      ({ initialCursor ErrorMode.strict with points := [0, 0, 1, 1] }, none) ∧
    (polylineF (initialCursor ErrorMode.strict)
      [("points", "0 0 1 1")]).1.path = [] ∧
    polyOpsSpec [0, 0, 1, 1] =
      [PathOp.moveTo ⟨0, 0⟩, PathOp.lineTo ⟨64, 64⟩] := by
  refine ⟨by decide, by decide, by decide, by decide, by decide⟩

/-- Record update used in the polyline statements: set the float buffer and
the accumulated path. -/
def withPointsPath (c : IconCursor) (pts : List ℚ) (p : SvgOpsPath) :
    IconCursor :=
  { c with points := pts, path := p }

/-- C5 (amended: more than two points are required for any emission). For a
points list with an even coordinate count and more than four coordinates,
`polylineF` emits a Move to the first point followed by a Line to each
subsequent point, `polygonF` additionally ends with a Close, and an odd
coordinate count is an error for both. -/
theorem claim_C5_polyline_polygon (c : IconCursor) (s : String)
    (pts : List ℚ) (h1 : getPointsRaw s = (pts, none))
    (hx : c.curX = 0) (hy : c.curY = 0) :
    (pts.length % 2 = 0 → pts.length > 4 →
      polylineF c [("points", s)] =
        (withPointsPath c pts (List.append c.path (polyOpsSpec pts)), none) ∧
      polygonF c [("points", s)] =
        (withPointsPath c pts (List.append
          (List.append c.path (polyOpsSpec pts)) [PathOp.close]), none)) ∧
    (pts.length % 2 = 1 →
      polylineF c [("points", s)] =
        ({ c with points := pts }, some SvgError.oddPolygonPoints) ∧
      (polygonF c [("points", s)]).2 = some SvgError.oddPolygonPoints) := by
  have hg : c.getPoints s = ({ c with points := pts }, none) := by
    simp [IconCursor.getPoints, h1]
  constructor
  · intro he h4
    have hline : polylineF c [("points", s)] =
        (withPointsPath c pts (List.append c.path (polyOpsSpec pts)), none) := by
      have hemit := polyEmitEq ({ c with points := pts }) hx hy (by simpa using he)
        (by simpa using h4)
      simp only [polylineF, foldAttrs, hg]
      simp [he, Nat.mod_two_ne_one, hemit, withPointsPath]
    refine ⟨hline, ?_⟩
    simp only [polygonF, hline]
    simp [h4, SvgOpsPath.stop, withPointsPath]
  · intro ho
    have hline : polylineF c [("points", s)] =
        ({ c with points := pts }, some SvgError.oddPolygonPoints) := by
      simp only [polylineF, foldAttrs, hg]
      simp [ho]
    refine ⟨hline, ?_⟩
    simp [polygonF, hline]

/-- Witness for C5 at three points (`"0 0 1 1 2 0"`) and at an odd count
(`"0 0 1"`). -/
theorem claim_C5_witness :
    (polylineF (initialCursor ErrorMode.strict) [("points", "0 0 1 1 2 0")] =
      (withPointsPath (initialCursor ErrorMode.strict) [0, 0, 1, 1, 2, 0]
        (polyOpsSpec [0, 0, 1, 1, 2, 0]), none) ∧
     polygonF (initialCursor ErrorMode.strict) [("points", "0 0 1 1 2 0")] =
      (withPointsPath (initialCursor ErrorMode.strict) [0, 0, 1, 1, 2, 0]
        (List.append (polyOpsSpec [0, 0, 1, 1, 2, 0]) [PathOp.close]), none)) ∧
    (polylineF (initialCursor ErrorMode.strict) [("points", "0 0 1")] =
      ({ initialCursor ErrorMode.strict with points := [0, 0, 1] },
       some SvgError.oddPolygonPoints) ∧
     (polygonF (initialCursor ErrorMode.strict) [("points", "0 0 1")]).2 =
       some SvgError.oddPolygonPoints) := by
  constructor
  · have h := (claim_C5_polyline_polygon (initialCursor ErrorMode.strict)
      "0 0 1 1 2 0" [0, 0, 1, 1, 2, 0] (by decide) rfl rfl).1
      (by decide) (by decide)
    simpa using h
  · exact (claim_C5_polyline_polygon (initialCursor ErrorMode.strict)
      "0 0 1" [0, 0, 1] (by decide) rfl rfl).2 (by decide)

/-! ## Claim C6 -/

def c6Stops : List GradStop := [⟨none, 0, 1⟩]

def c6Heap : StopHeap := [c6Stops]

def c6Grad : HGradient :=
  ⟨0, GradDirection.linear 0 0 1 0, ⟨0, 0, 0, 0⟩, Identity,
   SpreadMethod.padSpread, GradientUnits.objectBoundingBox⟩

def redColor : RGBA := ⟨255, 0, 0, 255⟩

/-- C6 counterexample. The claim says a stop with an absent stop-color is
replaced by "the first non-null stop color when that paint is a gradient,
otherwise black". When the current paint is the plain color red, the code
(`getColor`, svgpath/parse.go) substitutes red itself — not black. -/
theorem claim_C6_counterexample :
    hGet (localizeGradHeap c6Heap c6Grad (SPPaint.col redColor)).1
      (localizeGradHeap c6Heap c6Grad (SPPaint.col redColor)).2.stopsRef =
      [⟨some redColor, 0, 1⟩] ∧
    redColor ≠ blackColor := by
  refine ⟨by decide, by decide⟩

theorem hGet_append_last (h : StopHeap) (x : List GradStop) :
    hGet (List.append h [x]) h.length = x := by
  simp [hGet, List.getD]

theorem hGet_append_of_lt (h : StopHeap) (x : List GradStop) (r : ℕ)
    (hr : r < h.length) : hGet (List.append h [x]) r = hGet h r := by
  simp [hGet, List.getD, List.getElem?_append, hr]

theorem map_substStop_noop (stops : List GradStop) (clr : RGBA)
    (hno : stops.any (fun s => s.stopColor = none) = false) :
    stops.map (substStop clr) = stops := by
  induction stops with
  | nil => rfl
  | cons hd tl ih =>
    simp only [List.any_cons, Bool.or_eq_false_iff] at hno
    simp only [List.map_cons, ih hno.2, List.cons.injEq, and_true]
    simp only [decide_eq_false_iff_not] at hno
    simp [substStop, hno.1]

/-- C6 (amended: the substituted color is the current paint's effective
color — the first non-null stop color when that paint is a gradient, the
paint's own color when it is a plain color, black otherwise). Resolving
`url(#id)` against the gradient table (`ReadGradURL` with
`localizeGradIfStopClrNil`, svgpath/parse.go) returns a value copy of the
stored gradient in which every nil stop color is replaced by
`getColor(defaultColor)`, while the stop slice of the gradient stored in
the table is left unmodified; all non-stop fields are copied unchanged. -/
theorem claim_C6_gradient_localization (h : StopHeap)
    (tab : List (String × HGradient)) (v : String) (dc : SPPaint)
    (g : HGradient)
    (hv1 : sStartsWith v "url(" = true) (hv2 : sEndsWith v ")" = true)
    (hsh : sStartsWith (sTrim (sDropRight (sDrop v 4) 1)) "#" = true)
    (hget : assocGet tab (sDrop (sTrim (sDropRight (sDrop v 4) 1)) 1) = some g)
    (href : g.stopsRef < h.length) :
    ReadGradURLHeap h tab v dc =
      ((localizeGradHeap h g dc).1, some (localizeGradHeap h g dc).2) ∧
    hGet (localizeGradHeap h g dc).1 g.stopsRef = hGet h g.stopsRef ∧
    hGet (localizeGradHeap h g dc).1 (localizeGradHeap h g dc).2.stopsRef =
      (hGet h g.stopsRef).map (substStop (getColorSP dc)) ∧
    (localizeGradHeap h g dc).2.direction = g.direction ∧
    (localizeGradHeap h g dc).2.bounds = g.bounds ∧
    (localizeGradHeap h g dc).2.matrix = g.matrix ∧
    (localizeGradHeap h g dc).2.spread = g.spread ∧
    (localizeGradHeap h g dc).2.units = g.units ∧
    (∀ cc, getColorSP (SPPaint.col cc) = cc) ∧
    getColorSP SPPaint.nilp = blackColor := by
  have hurl : ReadGradURLHeap h tab v dc =
      ((localizeGradHeap h g dc).1, some (localizeGradHeap h g dc).2) := by
    simp [ReadGradURLHeap, hv1, hv2, hsh, hget]
  cases han : (hGet h g.stopsRef).any (fun s => s.stopColor = none) with
  | false =>
    refine ⟨hurl, ?_, ?_, ?_, ?_, ?_, ?_, ?_, fun _ => rfl, rfl⟩ <;>
      simp [localizeGradHeap, han, map_substStop_noop _ _ han]
  | true =>
    refine ⟨hurl, ?_, ?_, ?_, ?_, ?_, ?_, ?_, fun _ => rfl, rfl⟩
    · simp only [localizeGradHeap, han, if_true]
      exact hGet_append_of_lt h _ _ href
    · simp only [localizeGradHeap, han, if_true]
      exact hGet_append_last h _
    all_goals simp [localizeGradHeap, han]

/-- Witness for C6 at a stored one-stop gradient and a plain red context. -/
theorem claim_C6_witness :
    ReadGradURLHeap c6Heap [("a", c6Grad)] "url(#a)" (SPPaint.col redColor) =
      ((localizeGradHeap c6Heap c6Grad (SPPaint.col redColor)).1,
       some (localizeGradHeap c6Heap c6Grad (SPPaint.col redColor)).2) ∧
    hGet (localizeGradHeap c6Heap c6Grad (SPPaint.col redColor)).1
        c6Grad.stopsRef = hGet c6Heap c6Grad.stopsRef ∧
    hGet (localizeGradHeap c6Heap c6Grad (SPPaint.col redColor)).1
        (localizeGradHeap c6Heap c6Grad (SPPaint.col redColor)).2.stopsRef =
      (hGet c6Heap c6Grad.stopsRef).map
        (substStop (getColorSP (SPPaint.col redColor))) := by
  have h := claim_C6_gradient_localization c6Heap [("a", c6Grad)] "url(#a)"
    (SPPaint.col redColor) c6Grad (by decide) (by decide) (by decide)
    (by decide) (by decide)
  exact ⟨h.1, h.2.1, h.2.2.1⟩

/-! ## Claim C8 -/

/-- C8. The transform-attribute parser (`readTransformAttr`,
svgicon/parse.go, reached after the function name is lower-cased) accepts
exactly translate (1 or 2 args), scale (1 or 2), rotate (1 or 3),
skewX (1), skewY (1) and matrix (6); every angle argument is multiplied by
π/180 before reaching the trigonometric matrix constructors; rotate with
three arguments expands to translate(cx,cy) · rotate(θ) · translate(-cx,-cy);
any other function name or argument count yields `ParamMismatch`. -/
theorem claim_C8_transform_names_arities (R : RealOps) (pts : List ℚ)
    (m : Matrix2D) :
    (∀ k : String, k ≠ "rotate" → k ≠ "translate" → k ≠ "skewx" →
      k ≠ "skewy" → k ≠ "scale" → k ≠ "matrix" →
      readTransformAttr R pts m k = Except.error SvgError.paramMismatch) ∧
    (pts.length = 1 → readTransformAttr R pts m "rotate" =
      Except.ok (m.Mult (rotationMatrix R (pts.getD 0 0 * R.pi / 180)))) ∧
    (pts.length = 3 → readTransformAttr R pts m "rotate" =
      Except.ok (((m.Mult (translationMatrix (pts.getD 1 0) (pts.getD 2 0))).Mult
        (rotationMatrix R (pts.getD 0 0 * R.pi / 180))).Mult
        (translationMatrix (-pts.getD 1 0) (-pts.getD 2 0)))) ∧
    (pts.length ≠ 1 → pts.length ≠ 3 → readTransformAttr R pts m "rotate" =
      Except.error SvgError.paramMismatch) ∧
    (pts.length = 1 → readTransformAttr R pts m "translate" =
      Except.ok (m.Mult (translationMatrix (pts.getD 0 0) 0))) ∧
    (pts.length = 2 → readTransformAttr R pts m "translate" =
      Except.ok (m.Mult (translationMatrix (pts.getD 0 0) (pts.getD 1 0)))) ∧
    (pts.length ≠ 1 → pts.length ≠ 2 → readTransformAttr R pts m "translate" =
      Except.error SvgError.paramMismatch) ∧
    (pts.length = 1 → readTransformAttr R pts m "skewx" =
      Except.ok (m.Mult ⟨1, 0, R.tan (pts.getD 0 0 * R.pi / 180), 1, 0, 0⟩)) ∧
    (pts.length ≠ 1 → readTransformAttr R pts m "skewx" =
      Except.error SvgError.paramMismatch) ∧
    (pts.length = 1 → readTransformAttr R pts m "skewy" =
      Except.ok (m.Mult ⟨1, R.tan (pts.getD 0 0 * R.pi / 180), 0, 1, 0, 0⟩)) ∧
    (pts.length ≠ 1 → readTransformAttr R pts m "skewy" =
      Except.error SvgError.paramMismatch) ∧
    (pts.length = 1 → readTransformAttr R pts m "scale" =
      Except.ok (m.Mult (scaleMatrix (pts.getD 0 0) 0))) ∧
    (pts.length = 2 → readTransformAttr R pts m "scale" =
      Except.ok (m.Mult (scaleMatrix (pts.getD 0 0) (pts.getD 1 0)))) ∧
    (pts.length ≠ 1 → pts.length ≠ 2 → readTransformAttr R pts m "scale" =
      Except.error SvgError.paramMismatch) ∧
    (pts.length = 6 → readTransformAttr R pts m "matrix" =
      Except.ok (m.Mult ⟨pts.getD 0 0, pts.getD 1 0, pts.getD 2 0,
        pts.getD 3 0, pts.getD 4 0, pts.getD 5 0⟩)) ∧
    (pts.length ≠ 6 → readTransformAttr R pts m "matrix" =
      Except.error SvgError.paramMismatch) := by
  refine ⟨?_, ?_, ?_, ?_, ?_, ?_, ?_, ?_, ?_, ?_, ?_, ?_, ?_, ?_, ?_, ?_⟩
  · intro k h1 h2 h3 h4 h5 h6
    simp [readTransformAttr, h1, h2, h3, h4, h5, h6]
  all_goals first
    | (intro h1 h2
       simp [readTransformAttr, h1, h2, Matrix2D.Translate, Matrix2D.Rotate,
         Matrix2D.Scale, Matrix2D.SkewX, Matrix2D.SkewY])
    | (intro h1
       simp [readTransformAttr, h1, Matrix2D.Translate, Matrix2D.Rotate,
         Matrix2D.Scale, Matrix2D.SkewX, Matrix2D.SkewY])

/-- Witness for C8: the three-argument rotate expansion at
rotate(90, 1, 2), and rejection of an unknown function name. -/
theorem claim_C8_witness :
    readTransformAttr qOps [90, 1, 2] Identity "rotate" =
      Except.ok (((Identity.Mult (translationMatrix ([90, 1, 2].getD 1 0)
        ([90, 1, 2].getD 2 0))).Mult
        (rotationMatrix qOps ([90, 1, 2].getD 0 0 * qOps.pi / 180))).Mult
        (translationMatrix (-[90, 1, 2].getD 1 0) (-[90, 1, 2].getD 2 0))) ∧
    readTransformAttr qOps ([] : List ℚ) Identity "frobnicate" =
      Except.error SvgError.paramMismatch :=
  ⟨(claim_C8_transform_names_arities qOps [90, 1, 2] Identity).2.2.1 (by decide),
   (claim_C8_transform_names_arities qOps [] Identity).1 "frobnicate"
     (by decide) (by decide) (by decide) (by decide) (by decide) (by decide)⟩

/-! ## Claim C10 -/

def radialCx : GradDirection → Option ℚ
  | GradDirection.radial cx _ _ _ _ _ => some cx
  | _ => none

def radialCy : GradDirection → Option ℚ
  | GradDirection.radial _ cy _ _ _ _ => some cy
  | _ => none

def radialFx : GradDirection → Option ℚ
  | GradDirection.radial _ _ fx _ _ _ => some fx
  | _ => none

def radialFy : GradDirection → Option ℚ
  | GradDirection.radial _ _ _ fy _ _ => some fy
  | _ => none

theorem getDq_set_self (l : List ℚ) (i : ℕ) (a : ℚ) (hi : i < l.length) :
    (l.set i a).getD i 0 = a := by
  induction l generalizing i with
  | nil => simp at hi
  | cons hd tl ih =>
    cases i with
    | zero => rfl
    | succ n =>
      simp only [List.set_cons_succ, List.getD_cons_succ]
      exact ih n (by simpa using hi)

theorem getDq_set_ne (l : List ℚ) (i j : ℕ) (a : ℚ) (hij : i ≠ j) :
    (l.set i a).getD j 0 = l.getD j 0 := by
  induction l generalizing i j with
  | nil => simp
  | cons hd tl ih =>
    cases i with
    | zero =>
      cases j with
      | zero => exact absurd rfl hij
      | succ jn => rfl
    | succ n =>
      cases j with
      | zero => rfl
      | succ jn =>
        simp only [List.set_cons_succ, List.getD_cons_succ]
        exact ih n jn (by omega)

theorem getEq_set_self (l : List ℚ) (i : ℕ) (a : ℚ) (hi : i < l.length) :
    (l.set i a)[i]?.getD 0 = a := by
  induction l generalizing i with
  | nil => simp at hi
  | cons hd tl ih =>
    cases i with
    | zero => simp
    | succ n => simpa using ih n (by simpa using hi)

theorem getEq_set_ne (l : List ℚ) (i j : ℕ) (a : ℚ) (hij : i ≠ j) :
    (l.set i a)[j]?.getD 0 = l[j]?.getD 0 := by
  induction l generalizing i j with
  | nil => simp
  | cons hd tl ih =>
    cases i with
    | zero =>
      cases j with
      | zero => exact absurd rfl hij
      | succ jn => simp
    | succ n =>
      cases j with
      | zero => simp
      | succ jn => simpa using ih n jn (by omega)

/-- One attribute step of `radialGradientF` preserves the direction length,
and — when the attribute is not `fx` — the `setFx` flag and the stored
`fx` slot. -/
theorem radialStep_pres_fx (R : RealOps)
    (s : IconCursor × (List ℚ) × Bool × Bool) (n v : String)
    (hn : n ≠ "fx") :
    (radialStep R s n v).1.2.2.1 = s.2.2.1 ∧
    (radialStep R s n v).1.2.1.getD 2 0 = s.2.1.getD 2 0 ∧
    (radialStep R s n v).1.2.1.length = s.2.1.length := by
  obtain ⟨c, dir, sfx, sfy⟩ := s
  by_cases h1 : n = "id"
  · simp [radialStep, h1]
  by_cases h2 : n = "cx"
  · rcases hf : readFraction v with _ | q <;>
      simp [radialStep, h1, h2, hf, getDq_set_ne dir 0 2 _ (by omega)]
  by_cases h3 : n = "cy"
  · rcases hf : readFraction v with _ | q <;>
      simp [radialStep, h1, h2, h3, hf, getDq_set_ne dir 1 2 _ (by omega)]
  by_cases h4 : n = "fy"
  · rcases hf : readFraction v with _ | q <;>
      simp [radialStep, h1, h2, h3, h4, hn, hf,
        getDq_set_ne dir 3 2 _ (by omega)]
  by_cases h5 : n = "r"
  · rcases hf : readFraction v with _ | q <;>
      simp [radialStep, h1, h2, h3, h4, h5, hn, hf,
        getDq_set_ne dir 4 2 _ (by omega)]
  by_cases h6 : n = "fr"
  · rcases hf : readFraction v with _ | q <;>
      simp [radialStep, h1, h2, h3, h4, h5, h6, hn, hf,
        getDq_set_ne dir 5 2 _ (by omega)]
  · rcases hg : readGradAttr R c n v with ⟨c2, e⟩
    cases e <;> simp [radialStep, h1, h2, h3, h4, h5, h6, hn, hg]

/-- Same, for `fy` (flag `setFy`, slot 3). -/
theorem radialStep_pres_fy (R : RealOps)
    (s : IconCursor × (List ℚ) × Bool × Bool) (n v : String)
    (hn : n ≠ "fy") :
    (radialStep R s n v).1.2.2.2 = s.2.2.2 ∧
    (radialStep R s n v).1.2.1.getD 3 0 = s.2.1.getD 3 0 ∧
    (radialStep R s n v).1.2.1.length = s.2.1.length := by
  obtain ⟨c, dir, sfx, sfy⟩ := s
  by_cases h1 : n = "id"
  · simp [radialStep, h1]
  by_cases h2 : n = "cx"
  · rcases hf : readFraction v with _ | q <;>
      simp [radialStep, h1, h2, hf, getDq_set_ne dir 0 3 _ (by omega)]
  by_cases h3 : n = "cy"
  · rcases hf : readFraction v with _ | q <;>
      simp [radialStep, h1, h2, h3, hf, getDq_set_ne dir 1 3 _ (by omega)]
  by_cases h4 : n = "fx"
  · rcases hf : readFraction v with _ | q <;>
      simp [radialStep, h1, h2, h3, h4, hn, hf,
        getDq_set_ne dir 2 3 _ (by omega)]
  by_cases h5 : n = "r"
  · rcases hf : readFraction v with _ | q <;>
      simp [radialStep, h1, h2, h3, h4, h5, hn, hf,
        getDq_set_ne dir 4 3 _ (by omega)]
  by_cases h6 : n = "fr"
  · rcases hf : readFraction v with _ | q <;>
      simp [radialStep, h1, h2, h3, h4, h5, h6, hn, hf,
        getDq_set_ne dir 5 3 _ (by omega)]
  · rcases hg : readGradAttr R c n v with ⟨c2, e⟩
    cases e <;> simp [radialStep, h1, h2, h3, h4, h5, h6, hn, hg]

/-- Any attribute step preserves the direction length. -/
theorem radialStep_pres_len (R : RealOps)
    (s : IconCursor × (List ℚ) × Bool × Bool) (n v : String) :
    (radialStep R s n v).1.2.1.length = s.2.1.length := by
  obtain ⟨c, dir, sfx, sfy⟩ := s
  by_cases h1 : n = "id"
  · simp [radialStep, h1]
  by_cases h2 : n = "cx"
  · rcases hf : readFraction v with _ | q <;> simp [radialStep, h1, h2, hf]
  by_cases h3 : n = "cy"
  · rcases hf : readFraction v with _ | q <;> simp [radialStep, h1, h2, h3, hf]
  by_cases h4 : n = "fx"
  · rcases hf : readFraction v with _ | q <;>
      simp [radialStep, h1, h2, h3, h4, hf]
  by_cases h5 : n = "fy"
  · rcases hf : readFraction v with _ | q <;>
      simp [radialStep, h1, h2, h3, h4, h5, hf]
  by_cases h6 : n = "r"
  · rcases hf : readFraction v with _ | q <;>
      simp [radialStep, h1, h2, h3, h4, h5, h6, hf]
  by_cases h7 : n = "fr"
  · rcases hf : readFraction v with _ | q <;>
      simp [radialStep, h1, h2, h3, h4, h5, h6, h7, hf]
  · rcases hg : readGradAttr R c n v with ⟨c2, e⟩
    cases e <;> simp [radialStep, h1, h2, h3, h4, h5, h6, h7, hg]

theorem radialFold_pres_fx (R : RealOps) (attrs : List Attr)
    (s : IconCursor × (List ℚ) × Bool × Bool)
    (hfx : ∀ p ∈ attrs, p.1 ≠ "fx") :
    (foldAttrs (radialStep R) attrs s).1.2.2.1 = s.2.2.1 ∧
    (foldAttrs (radialStep R) attrs s).1.2.1.getD 2 0 = s.2.1.getD 2 0 ∧
    (foldAttrs (radialStep R) attrs s).1.2.1.length = s.2.1.length := by
  induction attrs generalizing s with
  | nil => exact ⟨rfl, rfl, rfl⟩
  | cons hd tl ih =>
    obtain ⟨n, v⟩ := hd
    have hstep := radialStep_pres_fx R s n v (hfx (n, v) (by simp))
    have htl : ∀ p ∈ tl, p.1 ≠ "fx" := fun p hp => hfx p (by simp [hp])
    rcases hr : radialStep R s n v with ⟨s2, e⟩
    cases e with
    | none =>
      have := ih s2 htl
      rw [hr] at hstep
      simp only [foldAttrs, hr]
      exact ⟨this.1.trans hstep.1, this.2.1.trans hstep.2.1,
        this.2.2.trans hstep.2.2⟩
    | some err =>
      rw [hr] at hstep
      simp only [foldAttrs, hr]
      exact hstep

theorem radialFold_pres_fy (R : RealOps) (attrs : List Attr)
    (s : IconCursor × (List ℚ) × Bool × Bool)
    (hfy : ∀ p ∈ attrs, p.1 ≠ "fy") :
    (foldAttrs (radialStep R) attrs s).1.2.2.2 = s.2.2.2 ∧
    (foldAttrs (radialStep R) attrs s).1.2.1.getD 3 0 = s.2.1.getD 3 0 ∧
    (foldAttrs (radialStep R) attrs s).1.2.1.length = s.2.1.length := by
  induction attrs generalizing s with
  | nil => exact ⟨rfl, rfl, rfl⟩
  | cons hd tl ih =>
    obtain ⟨n, v⟩ := hd
    have hstep := radialStep_pres_fy R s n v (hfy (n, v) (by simp))
    have htl : ∀ p ∈ tl, p.1 ≠ "fy" := fun p hp => hfy p (by simp [hp])
    rcases hr : radialStep R s n v with ⟨s2, e⟩
    cases e with
    | none =>
      have := ih s2 htl
      rw [hr] at hstep
      simp only [foldAttrs, hr]
      exact ⟨this.1.trans hstep.1, this.2.1.trans hstep.2.1,
        this.2.2.trans hstep.2.2⟩
    | some err =>
      rw [hr] at hstep
      simp only [foldAttrs, hr]
      exact hstep

theorem radialFold_pres_len (R : RealOps) (attrs : List Attr)
    (s : IconCursor × (List ℚ) × Bool × Bool) :
    (foldAttrs (radialStep R) attrs s).1.2.1.length = s.2.1.length := by
  induction attrs generalizing s with
  | nil => rfl
  | cons hd tl ih =>
    obtain ⟨n, v⟩ := hd
    have hstep := radialStep_pres_len R s n v
    rcases hr : radialStep R s n v with ⟨s2, e⟩
    rw [hr] at hstep
    cases e with
    | none =>
      simp only [foldAttrs, hr]
      exact (ih s2).trans hstep
    | some err =>
      simp only [foldAttrs, hr]
      exact hstep

theorem setGrad_grad (c : IconCursor) (g : Gradient) :
    (c.setGrad g).grad = some g := rfl

theorem radialFold_fx_flag (R : RealOps) (attrs : List Attr)
    (hfx : ∀ p ∈ attrs, p.1 ≠ "fx") {s : IconCursor × (List ℚ) × Bool × Bool} :
    (foldAttrs (radialStep R) attrs s).1.2.2.1 = s.2.2.1 :=
  (radialFold_pres_fx R attrs s hfx).1

theorem radialFold_fx_slot (R : RealOps) (attrs : List Attr)
    (hfx : ∀ p ∈ attrs, p.1 ≠ "fx") {s : IconCursor × (List ℚ) × Bool × Bool} :
    (foldAttrs (radialStep R) attrs s).1.2.1.getD 2 0 = s.2.1.getD 2 0 :=
  (radialFold_pres_fx R attrs s hfx).2.1

theorem radialFold_fy_flag (R : RealOps) (attrs : List Attr)
    (hfy : ∀ p ∈ attrs, p.1 ≠ "fy") {s : IconCursor × (List ℚ) × Bool × Bool} :
    (foldAttrs (radialStep R) attrs s).1.2.2.2 = s.2.2.2 :=
  (radialFold_pres_fy R attrs s hfy).1

theorem radialFold_fy_slot (R : RealOps) (attrs : List Attr)
    (hfy : ∀ p ∈ attrs, p.1 ≠ "fy") {s : IconCursor × (List ℚ) × Bool × Bool} :
    (foldAttrs (radialStep R) attrs s).1.2.1.getD 3 0 = s.2.1.getD 3 0 :=
  (radialFold_pres_fy R attrs s hfy).2.1

theorem radialFold_len (R : RealOps) (attrs : List Attr)
    {s : IconCursor × (List ℚ) × Bool × Bool} :
    (foldAttrs (radialStep R) attrs s).1.2.1.length = s.2.1.length :=
  radialFold_pres_len R attrs s

/-- C10. After a successful `radialGradientF` (svgicon/svg_elements.go), if
no `fx` attribute was given the stored radial direction has `fx = cx`, and
if no `fy` attribute was given it has `fy = cy`; an explicitly given `fx`
(resp. `fy`) whose value parses is kept unchanged. -/
theorem claim_C10_radial_focal_defaults (R : RealOps) (c : IconCursor)
    (attrs : List Attr) (c2 : IconCursor)
    (hok : radialGradientF R c attrs = (c2, none)) :
    ((∀ p ∈ attrs, p.1 ≠ "fx") →
      c2.grad.map (fun g => radialFx g.direction) =
        c2.grad.map (fun g => radialCx g.direction) ∧
      c2.grad.isSome = true) ∧
    ((∀ p ∈ attrs, p.1 ≠ "fy") →
      c2.grad.map (fun g => radialFy g.direction) =
        c2.grad.map (fun g => radialCy g.direction) ∧
      c2.grad.isSome = true) ∧
    (∀ l1 l2 v q, attrs = List.append l1 (("fx", v) :: l2) →
      (∀ p ∈ l2, p.1 ≠ "fx") → readFraction v = some q →
      c2.grad.map (fun g => radialFx g.direction) = some (some q)) ∧
    (∀ l1 l2 v q, attrs = List.append l1 (("fy", v) :: l2) →
      (∀ p ∈ l2, p.1 ≠ "fy") → readFraction v = some q →
      c2.grad.map (fun g => radialFy g.direction) = some (some q)) := by
  simp only [radialGradientF] at hok
  split at hok
  case _ c3 dir sfx sfy heq =>
    rw [Prod.mk.injEq] at hok
    obtain ⟨h1, -⟩ := hok
    subst h1
    have hlen : dir.length = 6 := by
      have h := congrArg (fun r => r.1.2.1.length) heq
      dsimp only at h
      rw [radialFold_len R attrs] at h
      simpa using h.symm
    refine ⟨?_, ?_, ?_, ?_⟩
    · intro hfx
      have hsfx : sfx = false := by
        have h := congrArg (fun r => r.1.2.2.1) heq
        dsimp only at h
        rw [radialFold_fx_flag R attrs hfx] at h
        simpa using h.symm
      subst hsfx
      refine ⟨?_, rfl⟩
      simp only [setGrad_grad, Option.map_some, Bool.not_false, if_true,
        radialFx, radialCx, Option.some.injEq]
      by_cases hsfy : sfy = false <;>
        simp [hsfy, getEq_set_ne (dir.set 2 (dir[0]?.getD 0)) 3 2 _ (by omega),
          getEq_set_ne (dir.set 2 (dir[0]?.getD 0)) 3 0 _ (by omega),
          getEq_set_ne dir 2 0 _ (by omega),
          getEq_set_self dir 2 _ (by omega)]
    · intro hfy
      have hsfy : sfy = false := by
        have h := congrArg (fun r => r.1.2.2.2) heq
        dsimp only at h
        rw [radialFold_fy_flag R attrs hfy] at h
        simpa using h.symm
      subst hsfy
      refine ⟨?_, rfl⟩
      simp only [setGrad_grad, Option.map_some, Bool.not_false, if_true,
        radialFy, radialCy, Option.some.injEq]
      by_cases hsfx : sfx = false <;>
        simp [hsfx, getEq_set_self (dir.set 2 (dir[0]?.getD 0)) 3 _ (by simp [hlen]),
          getEq_set_ne (dir.set 2 (dir[0]?.getD 0)) 3 1 _ (by omega),
          getEq_set_ne dir 2 3 _ (by omega),
          getEq_set_ne dir 2 1 _ (by omega),
          getEq_set_self dir 3 _ (by omega)]
    · intro l1 l2 v q hsplit hl2 hq
      subst hsplit
      rw [foldAttrs_append] at heq
      split at heq
      case _ s1 hfold =>
        have hlen1 : s1.2.1.length = 6 := by
          have h := congrArg (fun r => r.1.2.1.length) hfold
          dsimp only at h
          rw [radialFold_len R l1] at h
          simpa using h.symm
        rw [show foldAttrs (radialStep R) (("fx", v) :: l2) s1 =
            foldAttrs (radialStep R) l2 (s1.1, s1.2.1.set 2 q, true, s1.2.2.2) by
          simp [foldAttrs, radialStep, hq]] at heq
        have hsfx : sfx = true := by
          have h := @radialFold_fx_flag R l2 hl2
            (s1.1, s1.2.1.set 2 q, true, s1.2.2.2)
          rw [heq] at h
          exact h
        have hdir2 : dir[2]?.getD 0 = q := by
          have h := @radialFold_fx_slot R l2 hl2
            (s1.1, s1.2.1.set 2 q, true, s1.2.2.2)
          rw [heq] at h
          rw [← List.getD_eq_getElem?_getD]
          exact h.trans (getDq_set_self s1.2.1 2 q (by omega))
        subst hsfx
        simp only [setGrad_grad, Option.map_some, Bool.not_true, if_false,
          radialFx, Option.some.injEq]
        by_cases hsfy : sfy = false <;>
          simp [hsfy, getEq_set_ne dir 3 2 _ (by omega), hdir2]
      case _ s1 e hfold =>
        simp at heq
    · intro l1 l2 v q hsplit hl2 hq
      subst hsplit
      rw [foldAttrs_append] at heq
      split at heq
      case _ s1 hfold =>
        have hlen1 : s1.2.1.length = 6 := by
          have h := congrArg (fun r => r.1.2.1.length) hfold
          dsimp only at h
          rw [radialFold_len R l1] at h
          simpa using h.symm
        rw [show foldAttrs (radialStep R) (("fy", v) :: l2) s1 =
            foldAttrs (radialStep R) l2 (s1.1, s1.2.1.set 3 q, s1.2.2.1, true) by
          simp [foldAttrs, radialStep, hq]] at heq
        have hsfy : sfy = true := by
          have h := @radialFold_fy_flag R l2 hl2
            (s1.1, s1.2.1.set 3 q, s1.2.2.1, true)
          rw [heq] at h
          exact h
        have hdir3 : dir[3]?.getD 0 = q := by
          have h := @radialFold_fy_slot R l2 hl2
            (s1.1, s1.2.1.set 3 q, s1.2.2.1, true)
          rw [heq] at h
          rw [← List.getD_eq_getElem?_getD]
          exact h.trans (getDq_set_self s1.2.1 3 q (by omega))
        subst hsfy
        simp only [setGrad_grad, Option.map_some, Bool.not_true, if_false,
          radialFy, Option.some.injEq]
        by_cases hsfx : sfx = false <;>
          simp [hsfx, getEq_set_ne dir 2 3 _ (by omega), hdir3]
      case _ s1 e hfold =>
        simp at heq
  case _ c3 x1 x2 x3 e heq =>
    simp at hok

/-- Witness for C10: a radial gradient with `cx` given and `fx` absent, and
one with `fx` explicit. -/
theorem claim_C10_witness :
    ((radialGradientF qOps (initialCursor ErrorMode.strict)
        [("id", "g"), ("cx", "0.3")]).1.grad.map
      (fun g => radialFx g.direction) =
     (radialGradientF qOps (initialCursor ErrorMode.strict)
        [("id", "g"), ("cx", "0.3")]).1.grad.map
      (fun g => radialCx g.direction)) ∧
    ((radialGradientF qOps (initialCursor ErrorMode.strict)
        [("id", "g"), ("fx", "0.9")]).1.grad.map
      (fun g => radialFx g.direction) = some (some (9 / 10))) := by
  constructor
  · rcases hok : radialGradientF qOps (initialCursor ErrorMode.strict)
      [("id", "g"), ("cx", "0.3")] with ⟨c2, e⟩
    have he : e = none := by
      rw [show e = (radialGradientF qOps (initialCursor ErrorMode.strict)
        [("id", "g"), ("cx", "0.3")]).2 from by rw [hok]]
      decide
    subst he
    have h := (claim_C10_radial_focal_defaults qOps _ _ _ hok).1 (by decide)
    simpa using h.1
  · rcases hok : radialGradientF qOps (initialCursor ErrorMode.strict)
      [("id", "g"), ("fx", "0.9")] with ⟨c2, e⟩
    have he : e = none := by
      rw [show e = (radialGradientF qOps (initialCursor ErrorMode.strict)
        [("id", "g"), ("fx", "0.9")]).2 from by rw [hok]]
      decide
    subst he
    have h := (claim_C10_radial_focal_defaults qOps _ _ _ hok).2.2.1
      [("id", "g")] [] "0.9" (9 / 10) (by decide) (by decide) (by decide)
    simpa using h

end Oksvg
